import Mathlib

/-!
Verification of the Resilient Schema Discovery Layer
(`src/db_context/database.py`, class `DatabaseConnector`).

The Python code is shallowly embedded: each database round trip is a value of
`Except PyErr rows` supplied by an environment, stateful control flow
(`try`/`except`/`finally`, connection acquire/release) becomes explicit state
passing over `DBState`, and the Oracle data dictionary is modelled as a
`Catalog` record of rows against which the SQL texts in the source are
translated query by query.
-/

set_option maxRecDepth 10000

deriving instance DecidableEq for Except

namespace OracleMCP
/-! Section: Python-level error model

`oracledb.DatabaseError` carries an error object with a numeric `code`
(`error_obj, = e.args; error_obj.code`).  `oracledb.Error` is its superclass;
exceptions outside the `oracledb` hierarchy are a third class.  The `tag`
fields only serve to distinguish concrete error values. -/

inductive PyErr where
  /-- an `oracledb.DatabaseError` whose error object has numeric code `code` -/
  | dbError (code : Int)
  /-- an `oracledb.Error` that is not a `DatabaseError` -/
  | oraError (tag : Nat)
  /-- any exception outside the `oracledb` hierarchy -/
  | otherError (tag : Nat)
deriving DecidableEq, Repr

/-- Class test `isinstance(e, oracledb.Error)`. -/
def PyErr.isOracleError : PyErr → Bool
  | .dbError _ => true
  | .oraError _ => true
  | .otherError _ => false

/-- Class test `isinstance(e, oracledb.DatabaseError)`. -/
def PyErr.isDatabaseError : PyErr → Bool
  | .dbError _ => true
  | _ => false

/-! Section: Python `str.upper()` (ASCII model)

Identifier handling in the source is ASCII (Oracle dictionary names); we model
`str.upper()` as the ASCII uppercase map. -/

/-- ASCII uppercase of one character, as `str.upper()` acts on ASCII. -/
def upChar (c : Char) : Char :=
  if 97 ≤ c.toNat ∧ c.toNat ≤ 122 then Char.ofNat (c.toNat - 32) else c

/-- Model of `s.upper()` on an ASCII string. -/
def pyUpper (s : String) : String := ⟨s.data.map upChar⟩

/-! Section: Execution-state monad

Every database round trip of the connector is logged with a `QTag` naming the
query site in the source; the state also counts pool acquisitions
(`get_connection`, line 57) and connection closes (`_close_connection`,
line 898). -/

/-- One tag per SQL round-trip site in `database.py`. -/
inductive QTag where
  | versionQ               -- SELECT * FROM v$version                       (line 142)
  | allObjectsAllQ         -- all_objects list, get_all_table_names        (line 220)
  | allObjectsUserQ        -- user_tables/user_views list                  (line 229)
  | objectCheckAllQ        -- existence check, all_objects                 (line 259)
  | objectCheckUserQ       -- existence check, user_tables/user_views      (line 268)
  | columnsQ               -- all_tab_columns                              (line 288)
  | relationshipsQ         -- FK relationships UNION ALL                   (line 312)
  | plsqlObjectsQ          -- all_objects PL/SQL listing                   (line 390)
  | sourceLinesQ           -- all_source                                   (line 428)
  | ddlQ                   -- dbms_metadata.get_ddl                        (line 443)
  | clobReadQ              -- await clob.read()                            (line 459)
  | constraintsQ           -- all_constraints                              (line 475)
  | consColumnsQ           -- all_cons_columns per constraint              (line 501)
  | refInfoQ               -- referenced table/columns per FK              (line 513)
  | indexesQ               -- all_indexes                                  (line 552)
  | indColumnsQ            -- all_ind_columns per index                    (line 577)
  | depsQ                  -- all_dependencies join all_objects            (line 600)
  | typesQ                 -- all_types                                    (line 646)
  | typeAttrsQ             -- all_type_attrs per OBJECT type               (line 664)
  | relatedReferencedQ     -- referenced-tables query                      (line 691)
  | relatedReferencingQ    -- referencing-tables query                     (line 705)
  | searchObjectsAllQ      -- all_objects list for search                  (line 739)
  | searchObjectsUserQ     -- user objects list for search                 (line 746)
  | searchColumnsQ         -- all_tab_columns search                       (line 781)
  | explainStmtQ           -- EXPLAIN PLAN FOR ...                         (line 818)
  | planTableQ             -- plan_table hierarchy query                   (line 821)
  | deletePlanQ            -- DELETE FROM plan_table                       (line 840)
  | commitQ                -- conn.commit()                                (line 841)
deriving DecidableEq, Repr

structure DBState where
  acquired : Nat := 0
  released : Nat := 0
  qlog : List QTag := []
deriving DecidableEq, Repr

/-- State-passing embedding of one connector coroutine: an exception either
propagates (`Except.error`) or the computation produces a value, and in both
cases the round-trip log and the acquire/release counters persist. -/
def DBM (α : Type) := DBState → Except PyErr α × DBState

def DBM.pure (a : α) : DBM α := fun s => (.ok a, s)

def DBM.bind (x : DBM α) (f : α → DBM β) : DBM β := fun s =>
  match x s with
  | (.ok a, s1) => f a s1
  | (.error e, s1) => (.error e, s1)

instance : Monad DBM where
  pure := DBM.pure
  bind := DBM.bind

/-- Model of `raise e` -/
def throwM (e : PyErr) : DBM α := fun s => (.error e, s)

/-- One logged database round trip whose outcome `res` is supplied by the
environment. -/
def runQ (t : QTag) (res : Except PyErr α) : DBM α := fun s =>
  (res, { s with qlog := s.qlog ++ [t] })

/-- Model of `conn = await self.get_connection()` — on success one connection is
acquired; on failure the error is logged and re-raised (lines 57-69). -/
def acquireConn (res : Except PyErr Unit) : DBM Unit := fun s =>
  match res with
  | .ok _ => (.ok (), { s with acquired := s.acquired + 1 })
  | .error e => (.error e, s)

/-- Model of `await self._close_connection(conn)` (line 898): closes the connection,
suppressing any error — it never raises. -/
def closeConn : DBM Unit := fun s => (.ok (), { s with released := s.released + 1 })

/-- Model of `try: body finally: fin` -/
def tryFinallyRun (body : DBM α) (fin : DBM Unit) : DBM α := fun s =>
  match body s with
  | (.ok a, s1) =>
    match fin s1 with
    | (.ok _, s2) => (.ok a, s2)
    | (.error e, s2) => (.error e, s2)
  | (.error e, s1) =>
    match fin s1 with
    | (.ok _, s2) => (.error e, s2)
    | (.error e2, s2) => (.error e2, s2)

/-- Model of `try: body except E as e: handler` where `p` is the class test of `E`. -/
def tryCatchOn (p : PyErr → Bool) (body : DBM α) (handler : PyErr → DBM α) : DBM α := fun s =>
  match body s with
  | (.ok a, s1) => (.ok a, s1)
  | (.error e, s1) => if p e then handler e s1 else (.error e, s1)

/-- The ubiquitous `conn = await self.get_connection(); try: body
finally: await self._close_connection(conn)` scaffold. -/
def withConn (acq : Except PyErr Unit) (body : DBM α) : DBM α := fun s =>
  match acquireConn acq s with
  | (.ok _, s1) => tryFinallyRun body closeConn s1
  | (.error e, s1) => (.error e, s1)

/-! Section: `_execute_with_fallback` (lines 166-185)

Try the ALL_* query; on `DatabaseError` with code 1031 try the USER_* query;
on a second 1031 return `[]`; anything else re-raises. -/

def executeWithFallbackM (allTag : QTag) (allRes : Except PyErr (List ρ))
    (userTag : QTag) (userRes : Except PyErr (List ρ)) : DBM (List ρ) :=
  tryCatchOn PyErr.isDatabaseError (runQ allTag allRes) fun e =>
    match e with
    | .dbError code =>
      if code = 1031 then
        tryCatchOn PyErr.isDatabaseError (runQ userTag userRes) fun e2 =>
          match e2 with
          | .dbError code2 =>
            if code2 = 1031 then DBM.pure [] else throwM (.dbError code2)
          | e2' => throwM e2'
      else throwM (.dbError code)
    | e' => throwM e'

/-! Section: Execution bridge `_execute_cursor` / `_execute_cursor_no_fetch`
(lines 98-112)

A cursor is modelled by the statement semantics the driver gives it
(`behavior`) plus its current materialized result set; `execute` runs the
statement and installs the full result set, `fetchall` returns and consumes
it.  The thick and thin branches of the source are transcribed separately. -/

structure PyCursor where
  behavior : String → List (String × String) → Except PyErr (List (List String))
  resultSet : List (List String)

def cursorExecute (c : PyCursor) (sql : String) (ps : List (String × String)) :
    Except PyErr PyCursor :=
  match c.behavior sql ps with
  | .ok rows => .ok { c with resultSet := rows }
  | .error e => .error e

def cursorFetchall (c : PyCursor) : List (List String) × PyCursor :=
  (c.resultSet, { c with resultSet := [] })

/-- Thick-mode branch (lines 100-102): `cursor.execute(sql, **params)` then
`cursor.fetchall()`, both blocking. -/
def executeCursorThick (c : PyCursor) (sql : String) (ps : List (String × String)) :
    Except PyErr (List (List String) × PyCursor) :=
  match cursorExecute c sql ps with
  | .ok c1 => .ok (cursorFetchall c1)
  | .error e => .error e

/-- Thin-mode branch (lines 103-105): `await cursor.execute(sql, **params)`
then `await cursor.fetchall()`, both suspending. -/
def executeCursorThin (c : PyCursor) (sql : String) (ps : List (String × String)) :
    Except PyErr (List (List String) × PyCursor) :=
  match cursorExecute c sql ps with
  | .ok c1 => .ok (cursorFetchall c1)
  | .error e => .error e

/-- Model of `_execute_cursor` (lines 98-105): branch on `self.thick_mode`. -/
def executeCursorBridge (thickMode : Bool) (c : PyCursor) (sql : String)
    (ps : List (String × String)) : Except PyErr (List (List String) × PyCursor) :=
  if thickMode then executeCursorThick c sql ps else executeCursorThin c sql ps

/-- Thick-mode branch of `_execute_cursor_no_fetch` (lines 109-110). -/
def executeCursorNoFetchThick (c : PyCursor) (sql : String)
    (ps : List (String × String)) : Except PyErr PyCursor :=
  cursorExecute c sql ps

/-- Thin-mode branch of `_execute_cursor_no_fetch` (lines 111-112). -/
def executeCursorNoFetchThin (c : PyCursor) (sql : String)
    (ps : List (String × String)) : Except PyErr PyCursor :=
  cursorExecute c sql ps

/-- Model of `_execute_cursor_no_fetch` (lines 107-112). -/
def executeCursorNoFetchBridge (thickMode : Bool) (c : PyCursor) (sql : String)
    (ps : List (String × String)) : Except PyErr PyCursor :=
  if thickMode then executeCursorNoFetchThick c sql ps
  else executeCursorNoFetchThin c sql ps

/-! Section: `difflib.SequenceMatcher` ratio, `_calculate_similarity`,
`_filter_by_similarity` (lines 187-209)

`SequenceMatcher(None, a, b).ratio()` is `2*M/T` where `T = len(a)+len(b)`
and `M` is the total size of the matching blocks: recursively take the
longest matching block and recurse on the parts to its left and right.
With no junk predicate difflib still applies its default autojunk: when
`len(b) >= 200`, characters occurring more than `len(b) // 100 + 1` times
in `b` are "popular" and dropped from `b2j` (`__chain_b`), so the
`j2len` dynamic programming cannot match them — but they are not in
`bjunk`, so the extension phase of `find_longest_match` extends the found
block over them like any ordinary character.  One block is therefore: the
best match over popular-free runs — maximal size, ties resolved to the
earliest start in `a`, then in `b` — extended leftwards and then rightwards
over arbitrary equal characters within the window.  Popularity is computed
once from the full second sequence and fixed through the recursion.
Scores are exact rationals standing for the Python floats. -/

/-- difflib autojunk (`__chain_b` with `isjunk=None, autojunk=True`):
`c` is popular in `b` iff `len(b) >= 200` and `c` occurs more than
`len(b) // 100 + 1` times in `b`. -/
def isPopular (b : List Char) (c : Char) : Bool :=
  decide (200 ≤ b.length ∧ b.length / 100 + 1 < b.count c)

/-- Length of the common leading run of two sequences restricted to
non-popular characters of the second — the runs difflib's `j2len` dynamic
programming can build once popular characters are dropped from `b2j`. -/
def commonRunLenNP (pop : Char → Bool) : List Char → List Char → Nat
  | a :: as, b :: bs =>
    if a = b ∧ pop b = false then commonRunLenNP pop as bs + 1 else 0
  | _, _ => 0

/-- The dynamic-programming part of `find_longest_match`: the `(i, j, size)`
with maximal `size` over popular-free runs; among those, minimal `i`; among
those, minimal `j`; and `(0, 0, 0)` when no such run exists (difflib
initializes `besti, bestj, bestsize = alo, blo, 0`). -/
def bestMatchDP (pop : Char → Bool) (a b : List Char) : Nat × Nat × Nat :=
  (List.range a.length).foldl (fun best i =>
    (List.range b.length).foldl (fun best j =>
      let k := commonRunLenNP pop (a.drop i) (b.drop j)
      if best.2.2 < k then (i, j, k) else best) best) (0, 0, 0)

/-- The first extension loop of `find_longest_match`: with `isjunk=None` the
junk set is empty, so the block extends leftwards while the preceding
characters are equal (popular characters included). -/
def extendLeft (a b : List Char) : Nat → Nat → Nat → Nat × Nat × Nat
  | 0, j, k => (0, j, k)
  | i + 1, 0, k => (i + 1, 0, k)
  | i + 1, j + 1, k =>
    match a.get? i, b.get? j with
    | some x, some y =>
      if x = y then extendLeft a b i j (k + 1) else (i + 1, j + 1, k)
    | _, _ => (i + 1, j + 1, k)

/-- The second extension loop: the block extends rightwards while the
characters after it are equal; the fuel bounds the remaining room in `a`. -/
def extendRightF : Nat → List Char → List Char → Nat → Nat → Nat → Nat
  | 0, _, _, _, _, k => k
  | f + 1, a, b, i, j, k =>
    match a.get? (i + k), b.get? (j + k) with
    | some x, some y => if x = y then extendRightF f a b i j (k + 1) else k
    | _, _ => k

def extendRight (a b : List Char) (i j k : Nat) : Nat :=
  extendRightF (a.length - (i + k)) a b i j k

/-- Model of `find_longest_match` on a window (as the extracted segments),
with `isjunk=None` and autojunk popularity `pop`: the best popular-free
match, extended left and then right over arbitrary equal characters (the
junk-extension loops are no-ops with an empty junk set). -/
def findLongestMatch (pop : Char → Bool) (a b : List Char) : Nat × Nat × Nat :=
  let m := bestMatchDP pop a b
  let left := extendLeft a b m.1 m.2.1 m.2.2
  (left.1, left.2.1, extendRight a b left.1 left.2.1 left.2.2)

/-- Total matched size over the matching-block recursion, with explicit fuel;
`matchTotal` supplies fuel strictly larger than the recursion depth. -/
def matchTotalF : Nat → (Char → Bool) → List Char → List Char → Nat
  | 0, _, _, _ => 0
  | fuel + 1, pop, a, b =>
    let m := findLongestMatch pop a b
    if m.2.2 = 0 then 0
    else
      matchTotalF fuel pop (a.take m.1) (b.take m.2.1) + m.2.2 +
        matchTotalF fuel pop (a.drop (m.1 + m.2.2)) (b.drop (m.2.1 + m.2.2))

/-- Sum of the sizes of all matching blocks of `a` and `b`, the popularity
set computed once from the full `b`. -/
def matchTotal (a b : List Char) : Nat :=
  matchTotalF (a.length + 1) (isPopular b) a b

/-- Model of `SequenceMatcher(None, a, b).ratio()`: `2*M/T`, and `1.0` when both
sequences are empty (difflib returns `1.0` for `T = 0`). -/
def smRatio (a b : List Char) : ℚ :=
  if a.length + b.length = 0 then 1
  else mkRat (2 * matchTotal a b) (a.length + b.length)

/-- Model of `_calculate_similarity` (lines 187-189):
`SequenceMatcher(None, s1.upper(), s2.upper()).ratio()`. -/
def calculateSimilarity (s1 s2 : String) : ℚ :=
  smRatio (pyUpper s1).data (pyUpper s2).data

/-- Python's substring test `pat in hay`. -/
def strContains (hay pat : List Char) : Bool :=
  (List.range (hay.length + 1)).any fun i => pat.isPrefixOf (hay.drop i)

/-- One step of Python's stable `list.sort(key=lambda x: x[1], reverse=True)`:
insert `x` before the first element whose score is `≤` its own, so earlier
input stays ahead on ties. -/
def sortInsertDesc (x : String × ℚ) : List (String × ℚ) → List (String × ℚ)
  | [] => [x]
  | y :: ys => if y.2 ≤ x.2 then x :: y :: ys else y :: sortInsertDesc x ys

/-- Stable descending-by-score sort (insertion sort, the unique stable result
of `results.sort(key=lambda x: x[1], reverse=True)`). -/
def sortDescStable : List (String × ℚ) → List (String × ℚ)
  | [] => []
  | x :: xs => sortInsertDesc x (sortDescStable xs)

/-- The pre-sort `results` list of `_filter_by_similarity` (lines 194-205),
built in input order. -/
def keptCandidates (items : List String) (searchTerm : String) (threshold : ℚ) :
    List (String × ℚ) :=
  items.filterMap fun item =>
    if strContains (pyUpper item).data (pyUpper searchTerm).data then
      some (item, (1 : ℚ))
    else
      let similarity := calculateSimilarity item searchTerm
      if threshold ≤ similarity then some (item, similarity) else none

/-- Model of `_filter_by_similarity` (lines 191-209); the source's default threshold
is `0.65 = mkRat 13 20`. -/
def filterBySimilarity (items : List String) (searchTerm : String) (threshold : ℚ) :
    List (String × ℚ) :=
  sortDescStable (keptCandidates items searchTerm threshold)

/-! Section: The connector's operations

Each operation is translated statement by statement from `database.py`.  The
outcome of every database round trip is supplied by an environment `Env`
(one typed field per SQL text in the source, keyed by the bind parameters the
source passes), so the operations' control flow — fallbacks, loops,
`try`/`except`/`finally` — is exactly the source's. -/

/-- A single-quote character, for SQL fragments quoted in the source. -/
def sq : String := String.singleton (Char.ofNat 39)

structure Env where
  /-- outcome of acquiring a pooled connection (`get_connection`) -/
  acquire : Except PyErr Unit
  /-- `conn.username` -/
  username : String
  /-- `self.target_schema` -/
  targetSchema : Option String
  /-- `SELECT * FROM v$version` — first column of each row -/
  versionQ : Except PyErr (List String)
  /-- all_objects TABLE/VIEW names for `owner` (get_all_table_names) -/
  allObjectsAllQ : String → Except PyErr (List String)
  /-- user_tables ∪ user_views names (get_all_table_names fallback) -/
  allObjectsUserQ : Except PyErr (List String)
  /-- existence check in all_objects: `owner`, `object_name` → object_type rows -/
  objectCheckAllQ : String → String → Except PyErr (List String)
  /-- existence check in user_tables/user_views: `object_name` → object_type rows -/
  objectCheckUserQ : String → Except PyErr (List String)
  /-- all_tab_columns: `owner`, `table_name` → (column_name, data_type, nullable) -/
  columnsQ : String → String → Except PyErr (List (String × String × String))
  /-- FK relationships UNION ALL: `owner`, `table_name` →
      (direction, source_column, referenced_table, referenced_column) -/
  relationshipsQ : String → String → Except PyErr (List (String × String × String × String))
  /-- all_objects PL/SQL listing: `owner`, `object_type`, optional pattern →
      (object_name, object_type, status, created, last_ddl_time) -/
  plsqlObjectsQ : String → String → Option String →
    Except PyErr (List (String × String × String × Option String × Option String))
  /-- all_source lines: `owner`, `name`, `type` → text lines -/
  sourceLinesQ : String → String → String → Except PyErr (List String)
  /-- `dbms_metadata.get_ddl` row: `object_type`, `object_name`, `owner` →
      rows of CLOB handles -/
  ddlQ : String → String → String → Except PyErr (List (List String))
  /-- `await clob.read()` on a CLOB handle -/
  clobReadQ : String → Except PyErr String
  /-- all_constraints: `owner`, `table_name` →
      (constraint_name, constraint_type, search_condition) -/
  constraintsQ : String → String → Except PyErr (List (String × String × Option String))
  /-- all_cons_columns: `owner`, `constraint_name` → column_name -/
  consColumnsQ : String → String → Except PyErr (List String)
  /-- referenced table/columns of an FK: `owner`, `constraint_name` →
      (table_name, column_name) -/
  refInfoQ : String → String → Except PyErr (List (String × String))
  /-- all_indexes: `owner`, `table_name` →
      (index_name, uniqueness, tablespace_name, status) -/
  indexesQ : String → String → Except PyErr (List (String × String × Option String × Option String))
  /-- all_ind_columns: `owner`, `index_name` → column_name -/
  indColumnsQ : String → String → Except PyErr (List String)
  /-- all_dependencies ⋈ all_objects: `object_name`, `owner` →
      (object_name, object_type, owner) -/
  depsQ : String → String → Except PyErr (List (String × String × String))
  /-- all_types: `owner`, optional pattern → (type_name, typecode) -/
  typesQ : String → Option String → Except PyErr (List (String × String))
  /-- all_type_attrs: `owner`, `type_name` → (attr_name, attr_type_name) -/
  typeAttrsQ : String → String → Except PyErr (List (String × String))
  /-- referenced-tables query of get_related_tables: `table_name`, `owner` -/
  relatedReferencedQ : String → String → Except PyErr (List String)
  /-- referencing-tables query of get_related_tables: `table_name`, `owner` -/
  relatedReferencingQ : String → String → Except PyErr (List String)
  /-- all_objects TABLE/VIEW names for search: `owner` -/
  searchObjectsAllQ : String → Except PyErr (List String)
  /-- user objects names for search fallback -/
  searchObjectsUserQ : Except PyErr (List String)
  /-- all_tab_columns search: `owner`, `table_names`, `search_term` →
      (table_name, column_name, data_type, nullable) -/
  searchColumnsQ : String → List String → String →
    Except PyErr (List (String × String × String × String))
  /-- `EXPLAIN PLAN FOR <query>` -/
  explainStmtQ : String → Except PyErr Unit
  /-- plan_table hierarchy query → execution_plan_step rows -/
  planTableQ : Except PyErr (List String)
  /-- `DELETE FROM plan_table` -/
  deletePlanQ : Except PyErr Unit
  /-- `conn.commit()` -/
  commitQ : Except PyErr Unit

/-- Canonical rendering of `str(e)` for an exception. -/
def errText : PyErr → String
  | .dbError code => "ORA-" ++ toString code
  | .oraError tag => "oracledb error " ++ toString tag
  | .otherError tag => "error " ++ toString tag

/-- Model of `_get_effective_schema` (lines 122-126): the target override if truthy
(Python: `None` and `""` are falsy), else the connection user, uppercased. -/
def effectiveSchema (env : Env) : String :=
  match env.targetSchema with
  | some t => if t = "" then pyUpper env.username else pyUpper t
  | none => pyUpper env.username

/-- Python-dict append used for `relationship_info` (line 355) and the
column-search result (line 796): insertion-ordered mapping from key to a
grown list. -/
def dictAppend {β : Type} : List (String × List β) → String → β → List (String × List β)
  | [], t, e => [(t, [e])]
  | (k, es) :: rest, t, e =>
    if k = t then (k, es ++ [e]) :: rest else (k, es) :: dictAppend rest t e

/-- Model of `get_effective_schema` (lines 128-134). -/
def getEffectiveSchema (env : Env) : DBM String :=
  withConn env.acquire (DBM.pure (effectiveSchema env))

/-- Model of `vendor_info` dictionary values of `get_database_info`. -/
inductive InfoVal where
  | s (v : String)
  | list (vs : List String)
deriving DecidableEq, Repr

abbrev InfoDict := List (String × InfoVal)

/-- The `try:` body of `get_database_info` (lines 139-162). -/
def getDatabaseInfoBody (env : Env) : DBM InfoDict :=
  tryCatchOn PyErr.isOracleError
      (do
        let versionInfo ← runQ .versionQ env.versionQ
        match versionInfo with
        | [] => DBM.pure []
        | fullVersion :: rest =>
          let base : InfoDict :=
            [("vendor", .s "Oracle"), ("version", .s fullVersion),
             ("schema", .s (effectiveSchema env))]
          let additionalInfo := rest.filter (fun r => r ≠ "")
          if additionalInfo.isEmpty then DBM.pure base
          else DBM.pure (base ++ [("additional_info", .list additionalInfo)]))
      (fun e => DBM.pure
        [("vendor", .s "Oracle"), ("version", .s "Unknown"), ("error", .s (errText e))])

/-- Model of `get_database_info` (lines 136-164). -/
def getDatabaseInfo (env : Env) : DBM InfoDict :=
  withConn env.acquire (getDatabaseInfoBody env)

/-- Model of `get_all_table_names` (lines 211-249).  The source returns the Python set
`{obj[0] for obj in objects}`; the embedding returns the underlying name
list. -/
def getAllTableNamesBody (env : Env) : DBM (List String) := do
  let schema := effectiveSchema env
  let objects ← executeWithFallbackM .allObjectsAllQ (env.allObjectsAllQ schema)
      .allObjectsUserQ env.allObjectsUserQ
  DBM.pure objects

def getAllTableNames (env : Env) : DBM (List String) :=
  withConn env.acquire (getAllTableNamesBody env)

structure ColumnInfo where
  name : String
  dataType : String
  nullable : Bool
deriving DecidableEq, Repr

structure RelEntry where
  localColumn : String
  foreignColumn : String
  direction : String
deriving DecidableEq, Repr

structure TableDetail where
  objectType : String
  columns : List ColumnInfo
  relationships : List (String × List RelEntry)
deriving DecidableEq, Repr

/-- The `try:` body of `load_table_details` (lines 254-372). -/
def loadTableDetailsBody (env : Env) (tableName : String) : DBM (Option TableDetail) :=
  tryCatchOn PyErr.isOracleError
      (do
        let schema := effectiveSchema env
        let objectInfo ← executeWithFallbackM .objectCheckAllQ
            (env.objectCheckAllQ schema (pyUpper tableName))
            .objectCheckUserQ (env.objectCheckUserQ (pyUpper tableName))
        match objectInfo with
        | [] => DBM.pure none
        | objectType :: _ => do
          let columns ← runQ .columnsQ (env.columnsQ schema (pyUpper tableName))
          let columnInfo := columns.map fun r =>
            ColumnInfo.mk r.1 r.2.1 (r.2.2 = "Y")
          if objectType = "TABLE" then do
            let relationships ← runQ .relationshipsQ
                (env.relationshipsQ schema (pyUpper tableName))
            let relationshipInfo := relationships.foldl
              (fun m r => dictAppend m r.2.2.1 (RelEntry.mk r.2.1 r.2.2.2 r.1)) []
            DBM.pure (some (TableDetail.mk objectType columnInfo relationshipInfo))
          else
            DBM.pure (some (TableDetail.mk objectType columnInfo [])))
      throwM

/-- Model of `load_table_details` (lines 251-374). -/
def loadTableDetails (env : Env) (tableName : String) : DBM (Option TableDetail) :=
  withConn env.acquire (loadTableDetailsBody env tableName)

structure PlsqlObj where
  name : String
  otype : String
  status : String
  owner : String
  created : Option String
  lastModified : Option String
deriving DecidableEq, Repr

/-- Model of `get_pl_sql_objects` (lines 376-416).  `name_pattern` is uppercased and
added only when truthy; dates are modelled as their already-formatted
strings. -/
def getPlSqlObjectsBody (env : Env) (objectType : String) (namePattern : Option String) :
    DBM (List PlsqlObj) := do
  let schema := effectiveSchema env
  let pattern : Option String :=
    match namePattern with
    | some p => if p = "" then none else some (pyUpper p)
    | none => none
  let objects ← runQ .plsqlObjectsQ (env.plsqlObjectsQ schema objectType pattern)
  DBM.pure (objects.map fun r =>
    PlsqlObj.mk r.1 r.2.1 r.2.2.1 schema r.2.2.2.1 r.2.2.2.2)

def getPlSqlObjects (env : Env) (objectType : String) (namePattern : Option String) :
    DBM (List PlsqlObj) :=
  withConn env.acquire (getPlSqlObjectsBody env objectType namePattern)

/-- The `try:` body of `get_object_source` (lines 421-463). -/
def getObjectSourceBody (env : Env) (objectType objectName : String) : DBM String :=
  tryCatchOn PyErr.isOracleError
      (do
        let schema := effectiveSchema env
        if objectType = "PACKAGE" ∨ objectType = "PACKAGE BODY" ∨
            objectType = "TYPE" ∨ objectType = "TYPE BODY" then do
          -- NOTE: `name` is passed through without `.upper()` (line 435)
          let sourceLines ← runQ .sourceLinesQ
              (env.sourceLinesQ schema objectName objectType)
          if sourceLines.isEmpty then DBM.pure ""
          else DBM.pure (String.intercalate "\n" sourceLines)
        else do
          let result ← runQ .ddlQ (env.ddlQ objectType objectName schema)
          match result with
          | [] => DBM.pure ""
          | row0 :: _ =>
            match row0 with
            | [] => DBM.pure ""
            | clob :: _ => do
              let text ← runQ .clobReadQ (env.clobReadQ clob)
              DBM.pure text)
      (fun e => DBM.pure ("Error retrieving source: " ++ errText e))

/-- Model of `get_object_source` (lines 418-465). -/
def getObjectSource (env : Env) (objectType objectName : String) : DBM String :=
  withConn env.acquire (getObjectSourceBody env objectType objectName)

structure ConstraintInfo where
  name : String
  ctype : String
  columns : List String
  references : Option (String × List String)
  condition : Option String
deriving DecidableEq, Repr

/-- The constraint-type code map of `get_table_constraints` (lines 488-493),
with `type_map.get(t, t)` semantics. -/
def typeMapGet (t : String) : String :=
  if t = "P" then "PRIMARY KEY"
  else if t = "R" then "FOREIGN KEY"
  else if t = "U" then "UNIQUE"
  else if t = "C" then "CHECK"
  else t

/-- Per-constraint loop body of `get_table_constraints` (lines 486-538). -/
def constraintStep (env : Env) (schema : String) (acc : List ConstraintInfo)
    (r : String × String × Option String) : DBM (List ConstraintInfo) := do
  let constraintName := r.1
  let constraintType := r.2.1
  let condition := r.2.2
  let columns ← runQ .consColumnsQ (env.consColumnsQ schema constraintName)
  let references ←
    if constraintType = "R" then do
      let refInfo ← runQ .refInfoQ (env.refInfoQ schema constraintName)
      match refInfo with
      | [] => DBM.pure none
      | first :: _ => DBM.pure (some (first.1, refInfo.map (·.2)))
    else DBM.pure none
  let cond : Option String :=
    if constraintType = "C" then
      match condition with
      | some c => if c = "" then none else some c
      | none => none
    else none
  DBM.pure (acc ++
    [ConstraintInfo.mk constraintName (typeMapGet constraintType) columns references cond])

def getTableConstraintsBody (env : Env) (tableName : String) : DBM (List ConstraintInfo) := do
  let schema := effectiveSchema env
  let constraints ← runQ .constraintsQ (env.constraintsQ schema (pyUpper tableName))
  constraints.foldlM (constraintStep env schema) []

/-- Model of `get_table_constraints` (lines 467-542). -/
def getTableConstraints (env : Env) (tableName : String) : DBM (List ConstraintInfo) :=
  withConn env.acquire (getTableConstraintsBody env tableName)

structure IndexInfo where
  name : String
  unique : Bool
  tablespace : Option String
  status : Option String
  columns : List String
deriving DecidableEq, Repr

/-- Per-index loop body of `get_table_indexes` (lines 564-587). -/
def indexStep (env : Env) (schema : String) (acc : List IndexInfo)
    (r : String × String × Option String × Option String) : DBM (List IndexInfo) := do
  let indexName := r.1
  let uniqueness := r.2.1
  let tablespace := r.2.2.1
  let status := r.2.2.2
  let columns ← runQ .indColumnsQ (env.indColumnsQ schema indexName)
  let ts : Option String :=
    match tablespace with
    | some t => if t = "" then none else some t
    | none => none
  let st : Option String :=
    match status with
    | some t => if t = "" then none else some t
    | none => none
  DBM.pure (acc ++ [IndexInfo.mk indexName (uniqueness = "UNIQUE") ts st columns])

def getTableIndexesBody (env : Env) (tableName : String) : DBM (List IndexInfo) := do
  let schema := effectiveSchema env
  let indexes ← runQ .indexesQ (env.indexesQ schema (pyUpper tableName))
  indexes.foldlM (indexStep env schema) []

/-- Model of `get_table_indexes` (lines 544-591). -/
def getTableIndexes (env : Env) (tableName : String) : DBM (List IndexInfo) :=
  withConn env.acquire (getTableIndexesBody env tableName)

structure DepObj where
  name : String
  otype : String
  owner : String
deriving DecidableEq, Repr

/-- Model of `get_dependent_objects` (lines 593-630).  The source binds
`object_name=object_name` without `.upper()` (line 614). -/
def getDependentObjectsBody (env : Env) (objectName : String) : DBM (List DepObj) :=
  tryCatchOn PyErr.isOracleError
    (do
      let schema := effectiveSchema env
      let dependencies ← runQ .depsQ (env.depsQ objectName schema)
      DBM.pure (dependencies.map fun r => DepObj.mk r.1 r.2.1 r.2.2))
    throwM

def getDependentObjects (env : Env) (objectName : String) : DBM (List DepObj) :=
  withConn env.acquire (getDependentObjectsBody env objectName)

structure TypeInfo where
  name : String
  typeCategory : String
  owner : String
  attributes : Option (List (String × String))
deriving DecidableEq, Repr

/-- Per-type loop body of `get_user_defined_types` (lines 655-677). -/
def typeStep (env : Env) (schema : String) (acc : List TypeInfo)
    (r : String × String) : DBM (List TypeInfo) := do
  let typeName := r.1
  let typecode := r.2
  let attributes ←
    if typecode = "OBJECT" then do
      let attrs ← runQ .typeAttrsQ (env.typeAttrsQ schema typeName)
      if attrs.isEmpty then DBM.pure none else DBM.pure (some attrs)
    else DBM.pure none
  DBM.pure (acc ++ [TypeInfo.mk typeName typecode schema attributes])

def getUserDefinedTypesBody (env : Env) (typePattern : Option String) : DBM (List TypeInfo) := do
  let schema := effectiveSchema env
  let pattern : Option String :=
    match typePattern with
    | some p => if p = "" then none else some (pyUpper p)
    | none => none
  let types ← runQ .typesQ (env.typesQ schema pattern)
  types.foldlM (typeStep env schema) []

/-- Model of `get_user_defined_types` (lines 632-681). -/
def getUserDefinedTypes (env : Env) (typePattern : Option String) : DBM (List TypeInfo) :=
  withConn env.acquire (getUserDefinedTypesBody env typePattern)

structure RelatedTables where
  referencedTables : List String
  referencingTables : List String
deriving DecidableEq, Repr

def getRelatedTablesBody (env : Env) (tableName : String) : DBM RelatedTables := do
  let schema := effectiveSchema env
  let referencedTables ← runQ .relatedReferencedQ
      (env.relatedReferencedQ (pyUpper tableName) schema)
  let referencingTables ← runQ .relatedReferencingQ
      (env.relatedReferencingQ (pyUpper tableName) schema)
  DBM.pure (RelatedTables.mk referencedTables referencingTables)

/-- Model of `get_related_tables` (lines 683-729). -/
def getRelatedTables (env : Env) (tableName : String) : DBM RelatedTables :=
  withConn env.acquire (getRelatedTablesBody env tableName)

/-- Model of `search_in_database` (lines 731-770); the source's default similarity
threshold is 0.65. -/
def searchInDatabaseBody (env : Env) (searchTerm : String) (limit : Nat) : DBM (List String) := do
  let schema := effectiveSchema env
  let allObjects ← executeWithFallbackM .searchObjectsAllQ (env.searchObjectsAllQ schema)
      .searchObjectsUserQ env.searchObjectsUserQ
  let matchedObjects := filterBySimilarity allObjects searchTerm (mkRat 13 20)
  DBM.pure ((matchedObjects.map (·.1)).take limit)

def searchInDatabase (env : Env) (searchTerm : String) (limit : Nat) : DBM (List String) :=
  withConn env.acquire (searchInDatabaseBody env searchTerm limit)

/-- Model of `search_columns_in_database` (lines 772-808). -/
def searchColumnsInDatabaseBody (env : Env) (tableNames : List String) (searchTerm : String) :
    DBM (List (String × List ColumnInfo)) := do
  let schema := effectiveSchema env
  let rows ← runQ .searchColumnsQ
      (env.searchColumnsQ schema tableNames (pyUpper searchTerm))
  DBM.pure (rows.foldl
    (fun m r => dictAppend m r.1 (ColumnInfo.mk r.2.1 r.2.2.1 (r.2.2.2 = "Y"))) [])

def searchColumnsInDatabase (env : Env) (tableNames : List String) (searchTerm : String) :
    DBM (List (String × List ColumnInfo)) :=
  withConn env.acquire (searchColumnsInDatabaseBody env tableNames searchTerm)

/-- Python's non-overlapping `str.count` with explicit fuel (only ever used
with a non-empty pattern). -/
def countOccurF : Nat → List Char → List Char → Nat
  | 0, _, _ => 0
  | f + 1, pat, hay =>
    if hay = [] then 0
    else if pat.isPrefixOf hay then 1 + countOccurF f pat (hay.drop pat.length)
    else countOccurF f pat hay.tail

def countOccur (pat hay : List Char) : Nat := countOccurF hay.length pat hay

/-- Substring test on strings (`needle in s` / `needle not in s`). -/
def strIn (needle s : String) : Bool := strContains s.data needle.data

/-- Model of `str.count` on strings. -/
def strCount (needle s : String) : Nat := countOccur needle.data s.data

/-- Model of `_analyze_query_for_optimization` (lines 860-896). -/
def analyzeQueryForOptimization (query : String) : List String :=
  let q := pyUpper query
  let s1 : List String :=
    if strIn "SELECT *" q then
      ["Consider selecting only needed columns instead of SELECT *"] else []
  let s2 : List String :=
    if strIn (" LIKE " ++ sq ++ "%something") q ∨
        strIn (" LIKE " ++ sq ++ "%something%" ++ sq) q then
      ["Leading wildcards in LIKE predicates prevent index usage"] else []
  let s3 : List String :=
    if strIn " IN (SELECT " q ∧ ¬ strIn " EXISTS" q then
      ["Consider using EXISTS instead of IN with subqueries for better performance"] else []
  let s4 : List String :=
    if strIn " OR " q then
      ["OR conditions may prevent index usage. Consider UNION ALL of separated queries"]
    else []
  let s5 : List String :=
    if ¬ strIn "/*+ " q ∧ 500 < q.length then
      ["Complex query could benefit from optimizer hints"] else []
  let s6 : List String :=
    if strIn " JOIN " q then
      (if ¬ strIn "/*+ LEADING" q ∧ 2 < strCount "JOIN" q then
        ["Multi-table joins may benefit from LEADING hint to control join order"] else []) ++
      (if ¬ strIn "/*+ USE_NL" q ∧ ¬ strIn "/*+ USE_HASH" q ∧ 1 < strCount "JOIN" q then
        ["Consider join method hints like USE_NL or USE_HASH for complex joins"] else [])
    else []
  let joinCount := strCount " JOIN " q
  let fromCount := strCount " FROM " q
  let tableCount := max fromCount (joinCount + 1)
  let s7 : List String :=
    if 4 < tableCount then
      ["Query joins " ++ toString tableCount ++
        " tables - consider reviewing join order and conditions"] else []
  s1 ++ s2 ++ s3 ++ s4 ++ s5 ++ s6 ++ s7

structure QueryPlan where
  executionPlan : List String
  optimizationSuggestions : List String
  errorMsg : Option String
deriving DecidableEq, Repr

/-- The `try:` body of `explain_query_plan` (lines 813-856). -/
def explainQueryPlanBody (env : Env) (query : String) : DBM QueryPlan :=
  tryCatchOn PyErr.isOracleError
      (do
        let _ ← runQ .explainStmtQ (env.explainStmtQ query)
        let planRows ← runQ .planTableQ env.planTableQ
        let _ ← runQ .deletePlanQ env.deletePlanQ
        let _ ← runQ .commitQ env.commitQ
        let basicAnalysis := analyzeQueryForOptimization query
        DBM.pure (QueryPlan.mk planRows basicAnalysis none))
      (fun e => DBM.pure
        (QueryPlan.mk [] ["Unable to generate execution plan due to error."] (some (errText e))))

/-- Model of `explain_query_plan` (lines 810-858). -/
def explainQueryPlan (env : Env) (query : String) : DBM QueryPlan :=
  withConn env.acquire (explainQueryPlanBody env query)

/-! Section: Exactly-once connection release

A computation is `QOnly` when it only performs queries: it never changes the
acquire/release counters.  Every operation's `try:` body is `QOnly`, and the
`withConn` scaffold then acquires and releases exactly once around it
(or not at all if acquisition itself fails). -/

def QOnly {α : Type} (m : DBM α) : Prop :=
  ∀ s, ((m s).2).acquired = s.acquired ∧ ((m s).2).released = s.released

/-- The operation acquires one connection and releases it exactly once when
acquisition succeeds, and touches no connection when acquisition fails —
on every exit path, normal or exceptional. -/
def ReleasesExactlyOnce {α : Type} (op : DBM α) (acq : Except PyErr Unit) : Prop :=
  ∀ s : DBState,
    ((op s).2).acquired = s.acquired + (match acq with | .ok _ => 1 | .error _ => 0) ∧
    ((op s).2).released = s.released + (match acq with | .ok _ => 1 | .error _ => 0)

/-! Section: Lazy, once-only pool initialization (lines 31-69)

`get_connection` checks `self._pool is None` without the lock (line 59) and
calls `initialize_pool`, which takes `self._pool_lock`, re-checks the pool
under the lock (line 34), and only then constructs it; construction failure
propagates (line 55) and `async with` releases the lock either way.  N
concurrent callers are modelled as an interleaving transition system. -/

structure PoolCfg where
  poolMin : Nat
  poolMax : Nat
  increment : Nat
  waitMode : Bool
deriving DecidableEq, Repr

/-- The sizing the source passes to `create_pool`/`create_pool_async`
(lines 37-51): `min=2, max=10, increment=1, getmode=POOL_GETMODE_WAIT`. -/
def sourcePoolCfg : PoolCfg := PoolCfg.mk 2 10 1 true

/-- Program counter of one task running `get_connection` through pool
initialization. -/
inductive TaskPC where
  | start      -- about to run the unguarded check of line 59
  | wantLock   -- saw the pool absent, awaiting the pool lock (line 33)
  | haveLock   -- holds the lock, about to re-check the pool (line 34)
  | done       -- past initialization with the pool present
  | failed     -- pool construction raised; the error propagated (line 55)
deriving DecidableEq, Repr

structure PoolSys (n : Nat) where
  pool : Option PoolCfg
  lock : Option (Fin n)
  built : Nat
  pcs : Fin n → TaskPC

/-- One interleaving step of some task `i`; pool construction may succeed or
fail, chosen by the environment. -/
inductive PoolStep (n : Nat) : PoolSys n → PoolSys n → Prop where
  | checkSome (s : PoolSys n) (i : Fin n) (cfg : PoolCfg) :
      s.pcs i = .start → s.pool = some cfg →
      PoolStep n s { s with pcs := Function.update s.pcs i .done }
  | checkNone (s : PoolSys n) (i : Fin n) :
      s.pcs i = .start → s.pool = none →
      PoolStep n s { s with pcs := Function.update s.pcs i .wantLock }
  | acquireLock (s : PoolSys n) (i : Fin n) :
      s.pcs i = .wantLock → s.lock = none →
      PoolStep n s { s with lock := some i, pcs := Function.update s.pcs i .haveLock }
  | recheckSome (s : PoolSys n) (i : Fin n) (cfg : PoolCfg) :
      s.pcs i = .haveLock → s.lock = some i → s.pool = some cfg →
      PoolStep n s { s with lock := none, pcs := Function.update s.pcs i .done }
  | createOk (s : PoolSys n) (i : Fin n) :
      s.pcs i = .haveLock → s.lock = some i → s.pool = none →
      PoolStep n s
        { s with pool := some sourcePoolCfg, built := s.built + 1,
                 lock := none, pcs := Function.update s.pcs i .done }
  | createFail (s : PoolSys n) (i : Fin n) :
      s.pcs i = .haveLock → s.lock = some i → s.pool = none →
      PoolStep n s { s with lock := none, pcs := Function.update s.pcs i .failed }

/-- All tasks at the unguarded check, no pool, no lock, nothing built. -/
def PoolSys.init (n : Nat) : PoolSys n :=
  PoolSys.mk none none 0 (fun _ => TaskPC.start)

def PoolReachable (n : Nat) (s : PoolSys n) : Prop :=
  Relation.ReflTransGen (PoolStep n) (PoolSys.init n) s

/-- Reachability invariant: the construction count matches pool presence, a
present pool carries the source's fixed sizing, and a task only finishes when
the pool is present. -/
def PoolInv (n : Nat) (s : PoolSys n) : Prop :=
  (s.pool = none → s.built = 0) ∧
  (∀ cfg, s.pool = some cfg → cfg = sourcePoolCfg ∧ s.built = 1) ∧
  (∀ i, s.pcs i = TaskPC.done → s.pool = some sourcePoolCfg)

/-! Section: The Oracle data dictionary as data

For claims about what the queries compute (rather than how failures are
handled), the dictionary views consulted by the source are modelled as lists
of rows and each SQL text is translated to a query over them.  Joins become
nested iteration (a deterministic refinement of SQL's unordered results),
`ORDER BY` becomes a stable sort, `DISTINCT` keeps first occurrences. -/

structure ObjRow where
  owner : String
  objectName : String
  objectType : String
deriving DecidableEq, Repr

structure TabColumnRow where
  owner : String
  tableName : String
  columnName : String
  dataType : String
  nullable : String
  columnId : Nat
deriving DecidableEq, Repr

structure ConstraintRow where
  owner : String
  constraintName : String
  tableName : String
  constraintType : String
  searchCondition : Option String
  rOwner : String
  rConstraintName : String
deriving DecidableEq, Repr

structure ConsColumnRow where
  owner : String
  constraintName : String
  tableName : String
  columnName : String
  position : Nat
deriving DecidableEq, Repr

structure DependencyRow where
  name : String
  dtype : String
  owner : String
  referencedName : String
  referencedOwner : String
deriving DecidableEq, Repr

structure Catalog where
  allObjects : List ObjRow
  allTabColumns : List TabColumnRow
  allConstraints : List ConstraintRow
  allConsColumns : List ConsColumnRow
  allDependencies : List DependencyRow
  userTables : List String
  userViews : List String
deriving DecidableEq, Repr

/-- Stable insertion for `stableSortLe`. -/
def stableInsertLe {α : Type} (le : α → α → Bool) (x : α) : List α → List α
  | [] => [x]
  | y :: ys => if le x y then x :: y :: ys else y :: stableInsertLe le x ys

/-- Stable ascending sort (`ORDER BY`). -/
def stableSortLe {α : Type} (le : α → α → Bool) : List α → List α
  | [] => []
  | x :: xs => stableInsertLe le x (stableSortLe le xs)

/-- Model of `DISTINCT`, keeping first occurrences. -/
def dedupFirstAux (seen : List String) : List String → List String
  | [] => []
  | x :: xs =>
    if seen.contains x then dedupFirstAux seen xs
    else x :: dedupFirstAux (x :: seen) xs

def dedupFirst (l : List String) : List String := dedupFirstAux [] l

/-- Existence check against `all_objects` (lines 259-265). -/
def objectCheckAllEval (cat : Catalog) (owner objectName : String) : List String :=
  (cat.allObjects.filter fun o =>
    o.owner == owner && o.objectName == objectName &&
      (o.objectType == "TABLE" || o.objectType == "VIEW")).map (·.objectType)

/-- Existence check against `user_tables`/`user_views` (lines 268-272). -/
def objectCheckUserEval (cat : Catalog) (objectName : String) : List String :=
  (cat.userTables.filter (fun t => t == objectName)).map (fun _ => "TABLE") ++
  (cat.userViews.filter (fun v => v == objectName)).map (fun _ => "VIEW")

/-- Column query against `all_tab_columns`, `ORDER BY column_id`
(lines 290-296). -/
def columnsEval (cat : Catalog) (owner tableName : String) :
    List (String × String × String) :=
  (stableSortLe (fun c1 c2 => c1.columnId ≤ c2.columnId)
    (cat.allTabColumns.filter fun c =>
      c.owner == owner && c.tableName == tableName)).map
    fun c => (c.columnName, c.dataType, c.nullable)

/-- The relationship query of `load_table_details` (lines 314-350):
OUTGOING rows `UNION ALL` INCOMING rows. -/
def relationshipsEval (cat : Catalog) (owner tableName : String) :
    List (String × String × String × String) :=
  ((cat.allConstraints.filter fun ac =>
      ac.constraintType == "R" && ac.owner == owner && ac.tableName == tableName).flatMap
    fun ac =>
      (cat.allConsColumns.filter fun acc =>
          acc.constraintName == ac.constraintName && acc.owner == ac.owner).flatMap
        fun acc =>
          (cat.allConsColumns.filter fun rcc =>
              rcc.constraintName == ac.rConstraintName && rcc.owner == ac.rOwner).map
            fun rcc => ("OUTGOING", acc.columnName, rcc.tableName, rcc.columnName)) ++
  ((cat.allConstraints.filter fun ac =>
      ac.constraintType == "R" && ac.rOwner == owner &&
        (cat.allConstraints.any fun pc =>
          pc.constraintName == ac.rConstraintName && pc.owner == owner &&
            pc.tableName == tableName &&
            (pc.constraintType == "P" || pc.constraintType == "U"))).flatMap
    fun ac =>
      (cat.allConsColumns.filter fun acc =>
          acc.constraintName == ac.constraintName && acc.owner == ac.owner).flatMap
        fun acc =>
          (cat.allConsColumns.filter fun rcc =>
              rcc.constraintName == ac.rConstraintName && rcc.owner == ac.rOwner).map
            fun rcc => ("INCOMING", rcc.columnName, ac.tableName, acc.columnName))

/-- Referenced-tables query of `get_related_tables` (lines 691-700):
`DISTINCT acc.table_name` over FKs owned by the table. -/
def relatedReferencedEval (cat : Catalog) (tableName owner : String) : List String :=
  dedupFirst
    ((cat.allConstraints.filter fun ac =>
        ac.constraintType == "R" && ac.tableName == tableName && ac.owner == owner).flatMap
      fun ac =>
        (cat.allConsColumns.filter fun acc =>
            acc.constraintName == ac.rConstraintName && acc.owner == ac.owner).map
          (·.tableName))

/-- Aliases declared by the FROM clause of the referencing-tables query
(lines 714-716): `FROM pk_constraints JOIN pk_constraints pk`. -/
def referencingFromAliases : List String := ["pk_constraints", "pk"]

/-- Aliases used by that query's SELECT list, ON condition and WHERE clause
(lines 713-718): `ac.table_name`, `ac.r_constraint_name`,
`pk.constraint_name`, `ac.constraint_type`, `ac.owner`. -/
def referencingUsedAliases : List String := ["ac", "ac", "pk", "ac", "ac"]

/-- What the referencing-tables query would compute had its FROM clause bound
`ac` to `all_constraints` (the evident intent): the distinct tables whose
foreign keys target a primary/unique constraint of `tableName`. -/
def referencingIntendedEval (cat : Catalog) (tableName owner : String) : List String :=
  let pkConstraints := (cat.allConstraints.filter fun c =>
    c.tableName == tableName && (c.constraintType == "P" || c.constraintType == "U") &&
      c.owner == owner).map (·.constraintName)
  dedupFirst
    ((cat.allConstraints.filter fun ac =>
        ac.constraintType == "R" && ac.owner == owner &&
          pkConstraints.contains ac.rConstraintName).map (·.tableName))

/-- The referencing-tables query as written (lines 705-719): its expressions
reference alias `ac`, which the FROM clause never declares, so Oracle rejects
the statement with ORA-00904 (invalid identifier) instead of returning
rows. -/
def relatedReferencingEval (cat : Catalog) (tableName owner : String) :
    Except PyErr (List String) :=
  if referencingUsedAliases.all (fun a => referencingFromAliases.contains a) then
    .ok (referencingIntendedEval cat tableName owner)
  else .error (.dbError 904)

/-- Dependent-objects query (lines 600-614): `all_dependencies` filtered on
the referenced object, joined back to `all_objects`. -/
def depsEval (cat : Catalog) (objectName owner : String) :
    List (String × String × String) :=
  (cat.allDependencies.filter fun d =>
      d.referencedName == objectName && d.referencedOwner == owner).flatMap
    fun d =>
      (cat.allObjects.filter fun ao =>
          ao.objectName == d.name && ao.objectType == d.dtype && ao.owner == d.owner).map
        fun ao => (ao.objectName, ao.objectType, ao.owner)

/-- An environment whose catalog-backed queries are evaluated against `cat`
with full privileges; queries no claim evaluates through the catalog return
no rows. -/
def catalogEnv (cat : Catalog) : Env where
  acquire := .ok ()
  username := "APP"
  targetSchema := none
  versionQ := .ok []
  allObjectsAllQ := fun _ => .ok []
  allObjectsUserQ := .ok []
  objectCheckAllQ := fun owner objectName => .ok (objectCheckAllEval cat owner objectName)
  objectCheckUserQ := fun objectName => .ok (objectCheckUserEval cat objectName)
  columnsQ := fun owner tableName => .ok (columnsEval cat owner tableName)
  relationshipsQ := fun owner tableName => .ok (relationshipsEval cat owner tableName)
  plsqlObjectsQ := fun _ _ _ => .ok []
  sourceLinesQ := fun _ _ _ => .ok []
  ddlQ := fun _ _ _ => .ok []
  clobReadQ := fun _ => .ok ""
  constraintsQ := fun _ _ => .ok []
  consColumnsQ := fun _ _ => .ok []
  refInfoQ := fun _ _ => .ok []
  indexesQ := fun _ _ => .ok []
  indColumnsQ := fun _ _ => .ok []
  depsQ := fun objectName owner => .ok (depsEval cat objectName owner)
  typesQ := fun _ _ => .ok []
  typeAttrsQ := fun _ _ => .ok []
  relatedReferencedQ := fun tableName owner => .ok (relatedReferencedEval cat tableName owner)
  relatedReferencingQ := fun tableName owner => relatedReferencingEval cat tableName owner
  searchObjectsAllQ := fun _ => .ok []
  searchObjectsUserQ := .ok []
  searchColumnsQ := fun _ _ _ => .ok []
  explainStmtQ := fun _ => .ok ()
  planTableQ := .ok []
  deletePlanQ := .ok ()
  commitQ := .ok ()

/-- A two-table schema: `APP.ORDERS` carries the foreign key `FK_ORD_CUST`
(`customer_id` → `CUSTOMERS.id` via primary key `PK_CUST`). -/
def demoCatalog : Catalog where
  allObjects :=
    [⟨"APP", "ORDERS", "TABLE"⟩, ⟨"APP", "CUSTOMERS", "TABLE"⟩]
  allTabColumns :=
    [⟨"APP", "ORDERS", "ID", "NUMBER", "N", 1⟩,
     ⟨"APP", "ORDERS", "CUSTOMER_ID", "NUMBER", "Y", 2⟩,
     ⟨"APP", "CUSTOMERS", "ID", "NUMBER", "N", 1⟩]
  allConstraints :=
    [⟨"APP", "FK_ORD_CUST", "ORDERS", "R", none, "APP", "PK_CUST"⟩,
     ⟨"APP", "PK_CUST", "CUSTOMERS", "P", none, "", ""⟩]
  allConsColumns :=
    [⟨"APP", "FK_ORD_CUST", "ORDERS", "CUSTOMER_ID", 1⟩,
     ⟨"APP", "PK_CUST", "CUSTOMERS", "ID", 1⟩]
  allDependencies := []
  userTables := ["ORDERS", "CUSTOMERS"]
  userViews := []

/-- A catalog whose only object is the view `ORDERS_V`, which nonetheless has
constraint rows attached to its name — the relationship query would return
rows if it ever ran. -/
def viewCatalog : Catalog where
  allObjects := [ObjRow.mk "APP" "ORDERS_V" "VIEW"]
  allTabColumns := [TabColumnRow.mk "APP" "ORDERS_V" "ID" "NUMBER" "N" 1]
  allConstraints :=
    [ConstraintRow.mk "APP" "FK_X" "ORDERS_V" "R" none "APP" "PK_X",
     ConstraintRow.mk "APP" "PK_X" "ORDERS_V" "P" none "" ""]
  allConsColumns := [ConsColumnRow.mk "APP" "FK_X" "ORDERS_V" "ID" 1]
  allDependencies := []
  userTables := []
  userViews := ["ORDERS_V"]

/-! Section: Running the fallback and the connection scaffold -/

/-- Result of `_execute_with_fallback` as a pure function of the two tiers'
outcomes. -/
def fallbackResult {ρ : Type} (allRes userRes : Except PyErr (List ρ)) :
    Except PyErr (List ρ) :=
  match allRes with
  | .ok rows => .ok rows
  | .error (.dbError code) =>
    if code = 1031 then
      match userRes with
      | .ok rows => .ok rows
      | .error (.dbError code2) =>
        if code2 = 1031 then .ok [] else .error (.dbError code2)
      | .error e2 => .error e2
    else .error (.dbError code)
  | .error e => .error e

/-- The round trips `_execute_with_fallback` performs: the restricted tier
runs exactly when the privileged tier failed with code 1031. -/
def fallbackTags {ρ : Type} (tA tU : QTag) (allRes : Except PyErr (List ρ)) :
    List QTag :=
  match allRes with
  | .ok _ => [tA]
  | .error (.dbError code) => if code = 1031 then [tA, tU] else [tA]
  | .error _ => [tA]

/-- One task runs `get_connection` to completion: sees no pool, takes the
lock, re-checks, constructs the pool. -/
def poolRunFinal : PoolSys 1 :=
  { PoolSys.init 1 with
      pool := some sourcePoolCfg, built := 1, lock := none,
      pcs := Function.update
        (Function.update (Function.update (PoolSys.init 1).pcs 0 TaskPC.wantLock)
          0 TaskPC.haveLock) 0 TaskPC.done }

/-- A catalog where view `V_FOO` depends on table `FOO`, both owned by the
effective schema `APP`. -/
def depsCatalog : Catalog where
  allObjects := [ObjRow.mk "APP" "FOO" "TABLE", ObjRow.mk "APP" "V_FOO" "VIEW"]
  allTabColumns := []
  allConstraints := []
  allConsColumns := []
  allDependencies := [DependencyRow.mk "V_FOO" "VIEW" "APP" "FOO" "APP"]
  userTables := ["FOO"]
  userViews := ["V_FOO"]

/-- An environment with no dictionary access at all: both existence-check
tiers fail with ORA-01031 (insufficient privileges). -/
def noAccessEnv : Env :=
  { catalogEnv demoCatalog with
      objectCheckAllQ := fun _ _ => .error (.dbError 1031),
      objectCheckUserQ := fun _ => .error (.dbError 1031) }

theorem upChar_idem (c : Char) : upChar (upChar c) = upChar c := by
  unfold upChar
  split
  · next h =>
    have hred : (Char.ofNat (c.toNat - 32)).toNat = c.toNat - 32 := by
      have hv : (c.toNat - 32).isValidChar := by left; omega
      simp [Char.ofNat, hv]
      rfl
    simp [hred]
    omega
  · rfl

theorem pyUpper_idem (s : String) : pyUpper (pyUpper s) = pyUpper s := by
  unfold pyUpper
  congr 1
  rw [List.map_map]
  exact List.map_congr_left fun a _ => upChar_idem a

theorem commonRunLenNP_le_left (pop : Char → Bool) :
    ∀ (xs ys : List Char), commonRunLenNP pop xs ys ≤ xs.length
  | [], _ => by simp [commonRunLenNP]
  | _ :: _, [] => by simp [commonRunLenNP]
  | x :: xs, y :: ys => by
    by_cases h : x = y ∧ pop y = false <;> simp [commonRunLenNP, h]
    exact commonRunLenNP_le_left pop xs ys

theorem commonRunLenNP_le_right (pop : Char → Bool) :
    ∀ (xs ys : List Char), commonRunLenNP pop xs ys ≤ ys.length
  | [], _ => by simp [commonRunLenNP]
  | _ :: _, [] => by simp [commonRunLenNP]
  | x :: xs, y :: ys => by
    by_cases h : x = y ∧ pop y = false <;> simp [commonRunLenNP, h]
    exact commonRunLenNP_le_right pop xs ys

theorem foldl_mem_preserve {α β : Type} {f : β → α → β} {P : β → Prop} :
    ∀ (l : List α) (b : β), (∀ b' x, x ∈ l → P b' → P (f b' x)) → P b → P (l.foldl f b)
  | [], _, _, hb => hb
  | x :: xs, b, h, hb =>
    foldl_mem_preserve xs (f b x)
      (fun b' y hy => h b' y (List.mem_cons_of_mem x hy))
      (h b x (List.mem_cons_self x xs) hb)

theorem bestMatchDP_bound (pop : Char → Bool) (a b : List Char) :
    (bestMatchDP pop a b).1 + (bestMatchDP pop a b).2.2 ≤ a.length ∧
    (bestMatchDP pop a b).2.1 + (bestMatchDP pop a b).2.2 ≤ b.length := by
  unfold bestMatchDP
  refine @foldl_mem_preserve _ _ _
    (fun best : Nat × Nat × Nat =>
      best.1 + best.2.2 ≤ a.length ∧ best.2.1 + best.2.2 ≤ b.length)
    (List.range a.length) (0, 0, 0) ?_ ⟨Nat.zero_le _, Nat.zero_le _⟩
  intro best i hi hbest
  refine @foldl_mem_preserve _ _ _
    (fun best : Nat × Nat × Nat =>
      best.1 + best.2.2 ≤ a.length ∧ best.2.1 + best.2.2 ≤ b.length)
    (List.range b.length) best ?_ hbest
  intro best' j hj hbest'
  dsimp only
  split
  · dsimp only
    constructor
    · have h1 := commonRunLenNP_le_left pop (a.drop i) (b.drop j)
      have h2 : (a.drop i).length = a.length - i := List.length_drop i a
      have h3 : i < a.length := List.mem_range.mp hi
      omega
    · have h1 := commonRunLenNP_le_right pop (a.drop i) (b.drop j)
      have h2 : (b.drop j).length = b.length - j := List.length_drop j b
      have h3 : j < b.length := List.mem_range.mp hj
      omega
  · exact hbest'

theorem extendLeft_sum (a b : List Char) :
    ∀ (i j k : Nat),
      (extendLeft a b i j k).1 + (extendLeft a b i j k).2.2 = i + k ∧
      (extendLeft a b i j k).2.1 + (extendLeft a b i j k).2.2 = j + k
  | 0, j, k => by simp [extendLeft]
  | i + 1, 0, k => by simp [extendLeft]
  | i + 1, j + 1, k => by
    unfold extendLeft
    cases hx : a.get? i with
    | none => simp
    | some x =>
      cases hy : b.get? j with
      | none => simp
      | some y =>
        dsimp only
        by_cases hxy : x = y
        · rw [if_pos hxy]
          have := extendLeft_sum a b i j (k + 1)
          omega
        · rw [if_neg hxy]
          exact ⟨rfl, rfl⟩

theorem extendRightF_bound :
    ∀ (f : Nat) (a b : List Char) (i j k : Nat),
      i + k ≤ a.length → j + k ≤ b.length →
      i + extendRightF f a b i j k ≤ a.length ∧
      j + extendRightF f a b i j k ≤ b.length
  | 0, a, b, i, j, k => fun h1 h2 => ⟨h1, h2⟩
  | f + 1, a, b, i, j, k => fun h1 h2 => by
    unfold extendRightF
    cases hx : a.get? (i + k) with
    | none => exact ⟨h1, h2⟩
    | some x =>
      cases hy : b.get? (j + k) with
      | none => exact ⟨h1, h2⟩
      | some y =>
        dsimp only
        by_cases hxy : x = y
        · rw [if_pos hxy]
          have hlt1 : i + k < a.length := by
            rcases List.get?_eq_some.mp hx with ⟨hl, _⟩
            exact hl
          have hlt2 : j + k < b.length := by
            rcases List.get?_eq_some.mp hy with ⟨hl, _⟩
            exact hl
          exact extendRightF_bound f a b i j (k + 1) (by omega) (by omega)
        · rw [if_neg hxy]
          exact ⟨h1, h2⟩

theorem findLongestMatch_bound (pop : Char → Bool) (a b : List Char) :
    (findLongestMatch pop a b).1 + (findLongestMatch pop a b).2.2 ≤ a.length ∧
    (findLongestMatch pop a b).2.1 + (findLongestMatch pop a b).2.2 ≤ b.length := by
  have hdp := bestMatchDP_bound pop a b
  have hel := extendLeft_sum a b (bestMatchDP pop a b).1 (bestMatchDP pop a b).2.1
    (bestMatchDP pop a b).2.2
  have h1 : (extendLeft a b (bestMatchDP pop a b).1 (bestMatchDP pop a b).2.1
      (bestMatchDP pop a b).2.2).1 +
      (extendLeft a b (bestMatchDP pop a b).1 (bestMatchDP pop a b).2.1
        (bestMatchDP pop a b).2.2).2.2 ≤ a.length := by omega
  have h2 : (extendLeft a b (bestMatchDP pop a b).1 (bestMatchDP pop a b).2.1
      (bestMatchDP pop a b).2.2).2.1 +
      (extendLeft a b (bestMatchDP pop a b).1 (bestMatchDP pop a b).2.1
        (bestMatchDP pop a b).2.2).2.2 ≤ b.length := by omega
  unfold findLongestMatch extendRight
  dsimp only
  exact extendRightF_bound _ a b _ _ _ h1 h2

/-- The fuel in `matchTotal` is irrelevant: any fuel above the list length
computes the same value, so `matchTotal` is the fixpoint of the
matching-block recursion. -/
theorem matchTotalF_fuel_irrelevant :
    ∀ (n : Nat) (pop : Char → Bool) (a b : List Char) (f : Nat),
      a.length < f → a.length ≤ n →
      matchTotalF f pop a b = matchTotalF (a.length + 1) pop a b := by
  intro n
  induction n with
  | zero =>
    intro pop a b f hf ha
    match f, hf with
    | f + 1, _ =>
      have ha0 : a.length = 0 := Nat.le_zero.mp ha
      simp only [matchTotalF, ha0]
      have hb : (findLongestMatch pop a b).2.2 = 0 := by
        have := (findLongestMatch_bound pop a b).1
        omega
      simp [hb]
  | succ n ih =>
    intro pop a b f hf ha
    match f, hf with
    | f + 1, _ =>
      simp only [matchTotalF]
      by_cases hz : (findLongestMatch pop a b).2.2 = 0
      · simp [hz]
      · have hb := findLongestMatch_bound pop a b
        have hk : 1 ≤ (findLongestMatch pop a b).2.2 := Nat.one_le_iff_ne_zero.mpr hz
        simp only [hz, if_false]
        have hlen1 : (a.take (findLongestMatch pop a b).1).length =
            (findLongestMatch pop a b).1 := by
          simp [List.length_take]
          omega
        have hlen2 : (a.drop ((findLongestMatch pop a b).1 +
            (findLongestMatch pop a b).2.2)).length =
            a.length - ((findLongestMatch pop a b).1 + (findLongestMatch pop a b).2.2) :=
          List.length_drop _ _
        have e1 : matchTotalF f pop (a.take (findLongestMatch pop a b).1)
              (b.take (findLongestMatch pop a b).2.1) =
            matchTotalF ((a.take (findLongestMatch pop a b).1).length + 1) pop
              (a.take (findLongestMatch pop a b).1) (b.take (findLongestMatch pop a b).2.1) := by
          apply ih
          · omega
          · omega
        have e1' : matchTotalF a.length pop (a.take (findLongestMatch pop a b).1)
              (b.take (findLongestMatch pop a b).2.1) =
            matchTotalF ((a.take (findLongestMatch pop a b).1).length + 1) pop
              (a.take (findLongestMatch pop a b).1) (b.take (findLongestMatch pop a b).2.1) := by
          apply ih
          · omega
          · omega
        have e2 : matchTotalF f pop
              (a.drop ((findLongestMatch pop a b).1 + (findLongestMatch pop a b).2.2))
              (b.drop ((findLongestMatch pop a b).2.1 + (findLongestMatch pop a b).2.2)) =
            matchTotalF
              ((a.drop ((findLongestMatch pop a b).1 + (findLongestMatch pop a b).2.2)).length + 1)
              pop
              (a.drop ((findLongestMatch pop a b).1 + (findLongestMatch pop a b).2.2))
              (b.drop ((findLongestMatch pop a b).2.1 + (findLongestMatch pop a b).2.2)) := by
          apply ih
          · omega
          · omega
        have e2' : matchTotalF a.length pop
              (a.drop ((findLongestMatch pop a b).1 + (findLongestMatch pop a b).2.2))
              (b.drop ((findLongestMatch pop a b).2.1 + (findLongestMatch pop a b).2.2)) =
            matchTotalF
              ((a.drop ((findLongestMatch pop a b).1 + (findLongestMatch pop a b).2.2)).length + 1)
              pop
              (a.drop ((findLongestMatch pop a b).1 + (findLongestMatch pop a b).2.2))
              (b.drop ((findLongestMatch pop a b).2.1 + (findLongestMatch pop a b).2.2)) := by
          apply ih
          · omega
          · omega
        rw [e1, e2, e1', e2']

theorem sortInsertDesc_perm (x : String × ℚ) :
    ∀ l : List (String × ℚ), (sortInsertDesc x l).Perm (x :: l)
  | [] => List.Perm.refl _
  | y :: ys => by
    simp only [sortInsertDesc]
    split
    · exact List.Perm.refl _
    · exact ((sortInsertDesc_perm x ys).cons y).trans (List.Perm.swap x y ys)

theorem sortDescStable_perm :
    ∀ l : List (String × ℚ), (sortDescStable l).Perm l
  | [] => List.Perm.refl _
  | x :: xs =>
    (sortInsertDesc_perm x (sortDescStable xs)).trans ((sortDescStable_perm xs).cons x)

theorem sortInsertDesc_sorted (x : String × ℚ) :
    ∀ l : List (String × ℚ), l.Pairwise (fun p q => q.2 ≤ p.2) →
      (sortInsertDesc x l).Pairwise (fun p q => q.2 ≤ p.2)
  | [], _ => List.pairwise_singleton _ _
  | y :: ys, h => by
    simp only [sortInsertDesc]
    rcases List.pairwise_cons.mp h with ⟨hy, hys⟩
    split
    · next hle =>
      refine List.pairwise_cons.mpr ⟨?_, h⟩
      intro z hz
      rcases List.mem_cons.mp hz with hz | hz
      · subst hz; exact hle
      · exact le_trans (hy z hz) hle
    · next hgt =>
      refine List.pairwise_cons.mpr ⟨?_, sortInsertDesc_sorted x ys hys⟩
      intro z hz
      have := (sortInsertDesc_perm x ys).mem_iff.mp hz
      rcases List.mem_cons.mp this with hz' | hz'
      · subst hz'; exact le_of_not_le hgt
      · exact hy z hz'

theorem sortDescStable_sorted :
    ∀ l : List (String × ℚ), (sortDescStable l).Pairwise (fun p q => q.2 ≤ p.2)
  | [] => List.Pairwise.nil
  | x :: xs => sortInsertDesc_sorted x (sortDescStable xs) (sortDescStable_sorted xs)

theorem sortInsertDesc_filter_stable (x : String × ℚ) (q : ℚ) :
    ∀ l : List (String × ℚ),
      (sortInsertDesc x l).filter (fun p => decide (p.2 = q)) =
        (x :: l).filter (fun p => decide (p.2 = q))
  | [] => rfl
  | y :: ys => by
    simp only [sortInsertDesc]
    split
    · rfl
    · next hgt =>
      by_cases hx : x.2 = q
      · have hy : ¬ y.2 = q := by
          intro hyq
          exact hgt (by rw [hyq, hx])
        simp [List.filter, hx, hy, sortInsertDesc_filter_stable x q ys]
      · by_cases hy : y.2 = q <;>
          simp [List.filter, hx, hy, sortInsertDesc_filter_stable x q ys]

theorem sortDescStable_filter_stable (q : ℚ) :
    ∀ l : List (String × ℚ),
      (sortDescStable l).filter (fun p => decide (p.2 = q)) =
        l.filter (fun p => decide (p.2 = q))
  | [] => rfl
  | x :: xs => by
    simp only [sortDescStable]
    rw [sortInsertDesc_filter_stable]
    by_cases hx : x.2 = q <;>
      simp [List.filter, hx, sortDescStable_filter_stable q xs]

theorem qonly_pure {α : Type} (a : α) : QOnly (DBM.pure a) := fun _ => ⟨rfl, rfl⟩

theorem qonly_throwM {α : Type} (e : PyErr) : QOnly (throwM e : DBM α) := fun _ => ⟨rfl, rfl⟩

theorem qonly_runQ {α : Type} (t : QTag) (res : Except PyErr α) : QOnly (runQ t res) :=
  fun _ => ⟨rfl, rfl⟩

theorem qonly_bind {α β : Type} {m : DBM α} {f : α → DBM β} (hm : QOnly m)
    (hf : ∀ a, QOnly (f a)) : QOnly (m >>= f) := by
  intro s
  show ((DBM.bind m f) s).2.acquired = s.acquired ∧ ((DBM.bind m f) s).2.released = s.released
  have hms := hm s
  rcases hx : m s with ⟨r, s1⟩
  rw [hx] at hms
  simp only [DBM.bind, hx]
  cases r with
  | ok a =>
    have hfs := hf a s1
    exact ⟨hfs.1.trans hms.1, hfs.2.trans hms.2⟩
  | error e => exact hms

theorem qonly_tryCatchOn {α : Type} {p : PyErr → Bool} {body : DBM α}
    {handler : PyErr → DBM α} (hb : QOnly body) (hh : ∀ e, QOnly (handler e)) :
    QOnly (tryCatchOn p body handler) := by
  intro s
  have hbs := hb s
  rcases hx : body s with ⟨r, s1⟩
  rw [hx] at hbs
  simp only [tryCatchOn, hx]
  cases r with
  | ok a => exact hbs
  | error e =>
    by_cases hp : p e = true
    · have hhs := hh e s1
      simp only [hp, if_true]
      exact ⟨hhs.1.trans hbs.1, hhs.2.trans hbs.2⟩
    · simp only [hp, if_false]
      exact hbs

theorem qonly_ite {α : Type} {c : Prop} [Decidable c] {m1 m2 : DBM α}
    (h1 : QOnly m1) (h2 : QOnly m2) : QOnly (if c then m1 else m2) := by
  split
  · exact h1
  · exact h2

theorem qonly_foldlM {α β : Type} {f : β → α → DBM β} (hf : ∀ b a, QOnly (f b a)) :
    ∀ (l : List α) (b : β), QOnly (l.foldlM f b)
  | [], b => qonly_pure b
  | x :: xs, b =>
    qonly_bind (hf b x) (fun b' => qonly_foldlM hf xs b')

theorem qonly_fallback {ρ : Type} (tA : QTag) (rA : Except PyErr (List ρ))
    (tU : QTag) (rU : Except PyErr (List ρ)) :
    QOnly (executeWithFallbackM tA rA tU rU) := by
  unfold executeWithFallbackM
  apply qonly_tryCatchOn (qonly_runQ _ _)
  intro e
  cases e with
  | dbError code =>
    dsimp only
    apply qonly_ite
    · apply qonly_tryCatchOn (qonly_runQ _ _)
      intro e2
      cases e2 with
      | dbError code2 =>
        dsimp only
        exact qonly_ite (qonly_pure _) (qonly_throwM _)
      | oraError t => exact qonly_throwM _
      | otherError t => exact qonly_throwM _
    · exact qonly_throwM _
  | oraError t => exact qonly_throwM _
  | otherError t => exact qonly_throwM _

theorem withConn_counts {α : Type} (acq : Except PyErr Unit) (body : DBM α)
    (h : QOnly body) : ReleasesExactlyOnce (withConn acq body) acq := by
  intro s
  cases acq with
  | error e =>
    simp only [withConn, acquireConn]
    omega
  | ok u =>
    have hb := h { s with acquired := s.acquired + 1 }
    rcases hx : body { s with acquired := s.acquired + 1 } with ⟨r, s2⟩
    rw [hx] at hb
    simp only [withConn, acquireConn, tryFinallyRun, closeConn, hx]
    cases r with
    | ok a =>
      simp only []
      constructor
      · simp only [] at hb ⊢
        omega
      · simp only [] at hb ⊢
        omega
    | error e =>
      constructor
      · simp only [] at hb ⊢
        omega
      · simp only [] at hb ⊢
        omega

theorem qonly_getDatabaseInfoBody (env : Env) : QOnly (getDatabaseInfoBody env) := by
  unfold getDatabaseInfoBody
  apply qonly_tryCatchOn
  · apply qonly_bind (qonly_runQ _ _)
    intro vi
    cases vi with
    | nil => exact qonly_pure _
    | cons h t =>
      dsimp only
      exact qonly_ite (qonly_pure _) (qonly_pure _)
  · intro e
    exact qonly_pure _

theorem qonly_getAllTableNamesBody (env : Env) : QOnly (getAllTableNamesBody env) := by
  unfold getAllTableNamesBody
  exact qonly_bind (qonly_fallback _ _ _ _) (fun _ => qonly_pure _)

theorem qonly_loadTableDetailsBody (env : Env) (t : String) :
    QOnly (loadTableDetailsBody env t) := by
  unfold loadTableDetailsBody
  apply qonly_tryCatchOn
  · apply qonly_bind (qonly_fallback _ _ _ _)
    intro oi
    cases oi with
    | nil => exact qonly_pure _
    | cons ot rest =>
      dsimp only
      apply qonly_bind (qonly_runQ _ _)
      intro cols
      dsimp only
      apply qonly_ite
      · apply qonly_bind (qonly_runQ _ _)
        intro rels
        exact qonly_pure _
      · exact qonly_pure _
  · intro e
    exact qonly_throwM e

theorem qonly_getPlSqlObjectsBody (env : Env) (ot : String) (np : Option String) :
    QOnly (getPlSqlObjectsBody env ot np) := by
  unfold getPlSqlObjectsBody
  exact qonly_bind (qonly_runQ _ _) (fun _ => qonly_pure _)

theorem qonly_getObjectSourceBody (env : Env) (ot objName : String) :
    QOnly (getObjectSourceBody env ot objName) := by
  unfold getObjectSourceBody
  apply qonly_tryCatchOn
  · apply qonly_ite
    · apply qonly_bind (qonly_runQ _ _)
      intro ls
      exact qonly_ite (qonly_pure _) (qonly_pure _)
    · apply qonly_bind (qonly_runQ _ _)
      intro result
      cases result with
      | nil => exact qonly_pure _
      | cons row0 rest =>
        dsimp only
        cases row0 with
        | nil => exact qonly_pure _
        | cons clob cs =>
          dsimp only
          exact qonly_bind (qonly_runQ _ _) (fun _ => qonly_pure _)
  · intro e
    exact qonly_pure _

theorem qonly_constraintStep (env : Env) (schema : String) (acc : List ConstraintInfo)
    (r : String × String × Option String) : QOnly (constraintStep env schema acc r) := by
  unfold constraintStep
  apply qonly_bind (qonly_runQ _ _)
  intro columns
  dsimp only
  apply qonly_ite
  · apply qonly_bind (qonly_runQ _ _)
    intro refInfo
    cases refInfo with
    | nil => exact qonly_bind (qonly_pure _) (fun _ => qonly_pure _)
    | cons first rest => exact qonly_bind (qonly_pure _) (fun _ => qonly_pure _)
  · exact qonly_bind (qonly_pure _) (fun _ => qonly_pure _)

theorem qonly_getTableConstraintsBody (env : Env) (t : String) :
    QOnly (getTableConstraintsBody env t) := by
  unfold getTableConstraintsBody
  apply qonly_bind (qonly_runQ _ _)
  intro constraints
  exact qonly_foldlM (fun b a => qonly_constraintStep env _ b a) constraints []

theorem qonly_indexStep (env : Env) (schema : String) (acc : List IndexInfo)
    (r : String × String × Option String × Option String) :
    QOnly (indexStep env schema acc r) := by
  unfold indexStep
  exact qonly_bind (qonly_runQ _ _) (fun _ => qonly_pure _)

theorem qonly_getTableIndexesBody (env : Env) (t : String) :
    QOnly (getTableIndexesBody env t) := by
  unfold getTableIndexesBody
  apply qonly_bind (qonly_runQ _ _)
  intro indexes
  exact qonly_foldlM (fun b a => qonly_indexStep env _ b a) indexes []

theorem qonly_getDependentObjectsBody (env : Env) (objName : String) :
    QOnly (getDependentObjectsBody env objName) := by
  unfold getDependentObjectsBody
  apply qonly_tryCatchOn
  · exact qonly_bind (qonly_runQ _ _) (fun _ => qonly_pure _)
  · intro e
    exact qonly_throwM e

theorem qonly_typeStep (env : Env) (schema : String) (acc : List TypeInfo)
    (r : String × String) : QOnly (typeStep env schema acc r) := by
  unfold typeStep
  dsimp only
  apply qonly_ite
  · apply qonly_bind (qonly_runQ _ _)
    intro attrs
    apply qonly_ite
    · exact qonly_bind (qonly_pure _) (fun _ => qonly_pure _)
    · exact qonly_bind (qonly_pure _) (fun _ => qonly_pure _)
  · exact qonly_bind (qonly_pure _) (fun _ => qonly_pure _)

theorem qonly_getUserDefinedTypesBody (env : Env) (tp : Option String) :
    QOnly (getUserDefinedTypesBody env tp) := by
  unfold getUserDefinedTypesBody
  apply qonly_bind (qonly_runQ _ _)
  intro types
  exact qonly_foldlM (fun b a => qonly_typeStep env _ b a) types []

theorem qonly_getRelatedTablesBody (env : Env) (t : String) :
    QOnly (getRelatedTablesBody env t) := by
  unfold getRelatedTablesBody
  apply qonly_bind (qonly_runQ _ _)
  intro referenced
  exact qonly_bind (qonly_runQ _ _) (fun _ => qonly_pure _)

theorem qonly_searchInDatabaseBody (env : Env) (term : String) (limit : Nat) :
    QOnly (searchInDatabaseBody env term limit) := by
  unfold searchInDatabaseBody
  exact qonly_bind (qonly_fallback _ _ _ _) (fun _ => qonly_pure _)

theorem qonly_searchColumnsInDatabaseBody (env : Env) (ts : List String) (term : String) :
    QOnly (searchColumnsInDatabaseBody env ts term) := by
  unfold searchColumnsInDatabaseBody
  exact qonly_bind (qonly_runQ _ _) (fun _ => qonly_pure _)

theorem poolInv_init (n : Nat) : PoolInv n (PoolSys.init n) := by
  refine ⟨fun _ => rfl, ?_, ?_⟩
  · intro cfg h
    cases h
  · intro i h
    cases h

theorem poolInv_step (n : Nat) (s s' : PoolSys n) (hs : PoolInv n s)
    (hstep : PoolStep n s s') : PoolInv n s' := by
  obtain ⟨h0, h1, h2⟩ := hs
  cases hstep with
  | checkSome i cfg hpc hpool =>
    refine ⟨h0, h1, fun j hj => ?_⟩
    dsimp only at hj ⊢
    by_cases hij : j = i
    · rcases h1 cfg hpool with ⟨hcfg, _⟩
      subst hcfg
      exact hpool
    · rw [Function.update_noteq hij] at hj
      exact h2 j hj
  | checkNone i hpc hpool =>
    refine ⟨h0, h1, fun j hj => ?_⟩
    dsimp only at hj ⊢
    by_cases hij : j = i
    · subst hij
      rw [Function.update_same] at hj
      cases hj
    · rw [Function.update_noteq hij] at hj
      exact h2 j hj
  | acquireLock i hpc hlock =>
    refine ⟨h0, h1, fun j hj => ?_⟩
    dsimp only at hj ⊢
    by_cases hij : j = i
    · subst hij
      rw [Function.update_same] at hj
      cases hj
    · rw [Function.update_noteq hij] at hj
      exact h2 j hj
  | recheckSome i cfg hpc hlock hpool =>
    refine ⟨h0, h1, fun j hj => ?_⟩
    dsimp only at hj ⊢
    by_cases hij : j = i
    · rcases h1 cfg hpool with ⟨hcfg, _⟩
      subst hcfg
      exact hpool
    · rw [Function.update_noteq hij] at hj
      exact h2 j hj
  | createOk i hpc hlock hpool =>
    refine ⟨?_, ?_, ?_⟩
    · intro h
      dsimp only at h
      cases h
    · intro cfg h
      dsimp only at h ⊢
      injection h with h1
      subst h1
      refine ⟨rfl, ?_⟩
      rw [h0 hpool]
    · intro j hj
      rfl
  | createFail i hpc hlock hpool =>
    refine ⟨h0, h1, fun j hj => ?_⟩
    dsimp only at hj ⊢
    by_cases hij : j = i
    · subst hij
      rw [Function.update_same] at hj
      cases hj
    · rw [Function.update_noteq hij] at hj
      exact h2 j hj

theorem poolInv_reachable (n : Nat) (s : PoolSys n) (h : PoolReachable n s) :
    PoolInv n s := by
  induction h with
  | refl => exact poolInv_init n
  | tail _ hstep ih => exact poolInv_step n _ _ ih hstep

/-- A task that has propagated a construction failure takes no further step:
the failure is not retried. -/
theorem poolStep_failed_stays (n : Nat) (s s' : PoolSys n) (i : Fin n)
    (hstep : PoolStep n s s') (hf : s.pcs i = TaskPC.failed) :
    s'.pcs i = TaskPC.failed := by
  cases hstep with
  | checkSome j cfg hpc hpool =>
    show Function.update s.pcs j TaskPC.done i = TaskPC.failed
    by_cases hij : i = j
    · subst hij
      rw [hf] at hpc
      cases hpc
    · rw [Function.update_noteq hij]
      exact hf
  | checkNone j hpc hpool =>
    show Function.update s.pcs j TaskPC.wantLock i = TaskPC.failed
    by_cases hij : i = j
    · subst hij
      rw [hf] at hpc
      cases hpc
    · rw [Function.update_noteq hij]
      exact hf
  | acquireLock j hpc hlock =>
    show Function.update s.pcs j TaskPC.haveLock i = TaskPC.failed
    by_cases hij : i = j
    · subst hij
      rw [hf] at hpc
      cases hpc
    · rw [Function.update_noteq hij]
      exact hf
  | recheckSome j cfg hpc hlock hpool =>
    show Function.update s.pcs j TaskPC.done i = TaskPC.failed
    by_cases hij : i = j
    · subst hij
      rw [hf] at hpc
      cases hpc
    · rw [Function.update_noteq hij]
      exact hf
  | createOk j hpc hlock hpool =>
    show Function.update s.pcs j TaskPC.done i = TaskPC.failed
    by_cases hij : i = j
    · subst hij
      rw [hf] at hpc
      cases hpc
    · rw [Function.update_noteq hij]
      exact hf
  | createFail j hpc hlock hpool =>
    show Function.update s.pcs j TaskPC.failed i = TaskPC.failed
    by_cases hij : i = j
    · subst hij
      rw [Function.update_same]
    · rw [Function.update_noteq hij]
      exact hf

theorem qonly_explainQueryPlanBody (env : Env) (query : String) :
    QOnly (explainQueryPlanBody env query) := by
  unfold explainQueryPlanBody
  apply qonly_tryCatchOn
  · apply qonly_bind (qonly_runQ _ _)
    intro u1
    apply qonly_bind (qonly_runQ _ _)
    intro planRows
    apply qonly_bind (qonly_runQ _ _)
    intro u2
    exact qonly_bind (qonly_runQ _ _) (fun _ => qonly_pure _)
  · intro e
    exact qonly_pure _

theorem fallbackM_run {ρ : Type} (tA tU : QTag) (rA rU : Except PyErr (List ρ))
    (s : DBState) :
    executeWithFallbackM tA rA tU rU s =
      (fallbackResult rA rU, { s with qlog := s.qlog ++ fallbackTags tA tU rA }) := by
  cases rA with
  | ok rows =>
    simp [executeWithFallbackM, tryCatchOn, runQ, fallbackResult, fallbackTags]
  | error e =>
    cases e with
    | dbError code =>
      by_cases hc : code = 1031
      · subst hc
        cases rU with
        | ok rows =>
          simp [executeWithFallbackM, tryCatchOn, runQ, fallbackResult, fallbackTags,
            PyErr.isDatabaseError, DBM.pure, throwM]
        | error e2 =>
          cases e2 with
          | dbError code2 =>
            by_cases hc2 : code2 = 1031
            · subst hc2
              simp [executeWithFallbackM, tryCatchOn, runQ, fallbackResult, fallbackTags,
                PyErr.isDatabaseError, DBM.pure, throwM]
            · simp [executeWithFallbackM, tryCatchOn, runQ, fallbackResult, fallbackTags,
                PyErr.isDatabaseError, DBM.pure, throwM, hc2]
          | oraError t =>
            simp [executeWithFallbackM, tryCatchOn, runQ, fallbackResult, fallbackTags,
              PyErr.isDatabaseError, DBM.pure, throwM]
          | otherError t =>
            simp [executeWithFallbackM, tryCatchOn, runQ, fallbackResult, fallbackTags,
              PyErr.isDatabaseError, DBM.pure, throwM]
      · simp [executeWithFallbackM, tryCatchOn, runQ, fallbackResult, fallbackTags,
          PyErr.isDatabaseError, DBM.pure, throwM, hc]
    | oraError t =>
      simp [executeWithFallbackM, tryCatchOn, runQ, fallbackResult, fallbackTags,
        PyErr.isDatabaseError, DBM.pure, throwM]
    | otherError t =>
      simp [executeWithFallbackM, tryCatchOn, runQ, fallbackResult, fallbackTags,
        PyErr.isDatabaseError, DBM.pure, throwM]

theorem withConn_ok_run {α : Type} (body : DBM α) (s : DBState) :
    withConn (.ok ()) body s =
      ((body { s with acquired := s.acquired + 1 }).1,
       { (body { s with acquired := s.acquired + 1 }).2 with
           released := (body { s with acquired := s.acquired + 1 }).2.released + 1 }) := by
  unfold withConn acquireConn tryFinallyRun closeConn
  rcases hx : body { s with acquired := s.acquired + 1 } with ⟨r, s2⟩
  cases r <;> simp [hx]

/-! Section: The claims -/

/-- C1 (fallback determinism, `_execute_with_fallback`, lines 166-185):
if the privileged query fails with the database error of code 1031 and the
restricted query succeeds, the fallback returns exactly the restricted
query's rows; if both fail with code 1031 it returns the empty sequence; and
if the privileged query fails with any other error, that error propagates
unchanged and the restricted query is never executed (only the privileged
tag is logged). -/
theorem c1_fallback_determinism :
    ∀ (ρ : Type) (tA tU : QTag) (rows : List ρ) (e : PyErr) (s : DBState),
      (executeWithFallbackM tA (.error (.dbError 1031)) tU (.ok rows) s =
        (.ok rows, { s with qlog := s.qlog ++ [tA, tU] })) ∧
      (executeWithFallbackM tA (.error (.dbError 1031)) tU
          (.error (.dbError 1031) : Except PyErr (List ρ)) s =
        (.ok [], { s with qlog := s.qlog ++ [tA, tU] })) ∧
      (e ≠ .dbError 1031 →
        ∀ rU : Except PyErr (List ρ),
          executeWithFallbackM tA (.error e) tU rU s =
            (.error e, { s with qlog := s.qlog ++ [tA] })) := by
  intro ρ tA tU rows e s
  refine ⟨?_, ?_, ?_⟩
  · rw [fallbackM_run]
    simp [fallbackResult, fallbackTags]
  · rw [fallbackM_run]
    simp [fallbackResult, fallbackTags]
  · intro he rU
    rw [fallbackM_run]
    cases e with
    | dbError code =>
      have hc : code ≠ 1031 := by
        intro h
        exact he (by rw [h])
      simp [fallbackResult, fallbackTags, hc]
    | oraError t => simp [fallbackResult, fallbackTags]
    | otherError t => simp [fallbackResult, fallbackTags]

theorem c1_fallback_determinism_witness :
    executeWithFallbackM QTag.objectCheckAllQ (.error (.dbError 942))
        QTag.objectCheckUserQ (.ok ([] : List String)) (DBState.mk 0 0 []) =
      (.error (.dbError 942), DBState.mk 0 0 [QTag.objectCheckAllQ]) :=
  (c1_fallback_determinism String QTag.objectCheckAllQ QTag.objectCheckUserQ []
    (.dbError 942) (DBState.mk 0 0 [])).2.2 (by decide) (.ok [])

/-- C4 (execution-bridge equivalence, `_execute_cursor` and
`_execute_cursor_no_fetch`, lines 98-112): for every cursor, SQL text and
parameter binding, the thick (synchronous) and thin (cooperative) branches
produce the same fully materialized row sequence, the same cursor state, and
surface the same errors — the two modes are observationally equivalent. -/
theorem c4_execution_bridge_equivalent :
    ∀ (mode1 mode2 : Bool) (c : PyCursor) (sql : String)
      (ps : List (String × String)),
      executeCursorBridge mode1 c sql ps = executeCursorBridge mode2 c sql ps ∧
      executeCursorNoFetchBridge mode1 c sql ps =
        executeCursorNoFetchBridge mode2 c sql ps := by
  intro m1 m2 c sql ps
  cases m1 <;> cases m2 <;> exact ⟨rfl, rfl⟩

/-- C5 (guaranteed release): every exposed operation that acquires a
connection releases it exactly once on every exit path — for any outcome of
any query (normal rows, empty rows, or any exception), the final state shows
one release per successful acquisition and none when acquisition itself
failed. -/
theorem c5_guaranteed_release :
    ∀ env : Env,
      ReleasesExactlyOnce (getDatabaseInfo env) env.acquire ∧
      ReleasesExactlyOnce (getAllTableNames env) env.acquire ∧
      (∀ t, ReleasesExactlyOnce (loadTableDetails env t) env.acquire) ∧
      (∀ t, ReleasesExactlyOnce (getTableConstraints env t) env.acquire) ∧
      (∀ t, ReleasesExactlyOnce (getTableIndexes env t) env.acquire) ∧
      (∀ o, ReleasesExactlyOnce (getDependentObjects env o) env.acquire) ∧
      (∀ t, ReleasesExactlyOnce (getRelatedTables env t) env.acquire) ∧
      (∀ term limit, ReleasesExactlyOnce (searchInDatabase env term limit) env.acquire) ∧
      (∀ ts term, ReleasesExactlyOnce (searchColumnsInDatabase env ts term) env.acquire) ∧
      (∀ q, ReleasesExactlyOnce (explainQueryPlan env q) env.acquire) ∧
      ReleasesExactlyOnce (getEffectiveSchema env) env.acquire ∧
      (∀ ot np, ReleasesExactlyOnce (getPlSqlObjects env ot np) env.acquire) ∧
      (∀ ot objName, ReleasesExactlyOnce (getObjectSource env ot objName) env.acquire) ∧
      (∀ tp, ReleasesExactlyOnce (getUserDefinedTypes env tp) env.acquire) := by
  intro env
  refine ⟨?_, ?_, ?_, ?_, ?_, ?_, ?_, ?_, ?_, ?_, ?_, ?_, ?_, ?_⟩
  · exact withConn_counts _ _ (qonly_getDatabaseInfoBody env)
  · exact withConn_counts _ _ (qonly_getAllTableNamesBody env)
  · intro t
    exact withConn_counts _ _ (qonly_loadTableDetailsBody env t)
  · intro t
    exact withConn_counts _ _ (qonly_getTableConstraintsBody env t)
  · intro t
    exact withConn_counts _ _ (qonly_getTableIndexesBody env t)
  · intro o
    exact withConn_counts _ _ (qonly_getDependentObjectsBody env o)
  · intro t
    exact withConn_counts _ _ (qonly_getRelatedTablesBody env t)
  · intro term limit
    exact withConn_counts _ _ (qonly_searchInDatabaseBody env term limit)
  · intro ts term
    exact withConn_counts _ _ (qonly_searchColumnsInDatabaseBody env ts term)
  · intro q
    exact withConn_counts _ _ (qonly_explainQueryPlanBody env q)
  · exact withConn_counts _ _ (qonly_pure _)
  · intro ot np
    exact withConn_counts _ _ (qonly_getPlSqlObjectsBody env ot np)
  · intro ot objName
    exact withConn_counts _ _ (qonly_getObjectSourceBody env ot objName)
  · intro tp
    exact withConn_counts _ _ (qonly_getUserDefinedTypesBody env tp)

/-- C6 (lazy, once-only pool initialization, lines 31-69): starting from
the absent-pool state, in every interleaving of any number of concurrent
`get_connection` callers at most one pool is ever constructed, a constructed
pool always carries `min=2, max=10, increment=1` and wait-on-exhaustion mode
with the construction count exactly 1, any task that finished initialization
saw exactly one construction, and a task whose pool construction failed
stays failed — the failure propagated and is never retried. -/
theorem c6_pool_init_once_only :
    ∀ (n : Nat) (s : PoolSys n), PoolReachable n s →
      s.built ≤ 1 ∧
      (∀ cfg, s.pool = some cfg → cfg = sourcePoolCfg ∧ s.built = 1) ∧
      (∀ i, s.pcs i = TaskPC.done → s.built = 1) ∧
      (∀ (s' : PoolSys n) (i : Fin n), PoolStep n s s' →
        s.pcs i = TaskPC.failed → s'.pcs i = TaskPC.failed) := by
  intro n s hreach
  obtain ⟨h0, h1, h2⟩ := poolInv_reachable n s hreach
  refine ⟨?_, h1, ?_, ?_⟩
  · cases hpool : s.pool with
    | none =>
      rw [h0 hpool]
      exact Nat.zero_le 1
    | some cfg =>
      rw [(h1 cfg hpool).2]
  · intro i hi
    exact (h1 sourcePoolCfg (h2 i hi)).2
  · intro s' i hstep hf
    exact poolStep_failed_stays n s s' i hstep hf

theorem c6_pool_init_once_only_witness :
    poolRunFinal.built ≤ 1 ∧ poolRunFinal.built = 1 := by
  have hreach : PoolReachable 1 poolRunFinal := by
    refine Relation.ReflTransGen.head (PoolStep.checkNone _ 0 rfl rfl) ?_
    refine Relation.ReflTransGen.head (PoolStep.acquireLock _ 0 ?_ rfl) ?_
    · simp [Function.update_same]
    refine Relation.ReflTransGen.head (PoolStep.createOk _ 0 ?_ rfl rfl) ?_
    · simp [Function.update_same]
    exact Relation.ReflTransGen.refl
  have h := c6_pool_init_once_only 1 poolRunFinal hreach
  refine ⟨h.1, ?_⟩
  exact (h.2.1 sourcePoolCfg rfl).2

/-- C2 (similarity ranker, `_filter_by_similarity` with threshold 0.65,
lines 187-209): every candidate whose uppercased form contains the uppercased
search term is kept with score exactly 1.0; every other candidate is kept iff
its SequenceMatcher ratio against the term (case-insensitive) is at least
0.65, with that ratio as its score; the output is sorted by score descending
and ties keep the original input order (for each score value, the output's
elements of that score equal the in-order kept list's); and concretely
`rank(["ORDER","ORDERS","PRODUCT"], "ORDER") = [("ORDER",1.0), ("ORDERS",1.0)]`
in that order, `rank(["abc"], "abc") = [("abc",1.0)]`, and
`rank(["xyz"], "abc") = []`. -/
theorem c2_similarity_ranker :
    (∀ (items : List String) (term item : String), item ∈ items →
      strContains (pyUpper item).data (pyUpper term).data = true →
      (item, (1 : ℚ)) ∈ filterBySimilarity items term (mkRat 13 20)) ∧
    (∀ (items : List String) (term item : String), item ∈ items →
      strContains (pyUpper item).data (pyUpper term).data = false →
      ((item, calculateSimilarity item term) ∈ filterBySimilarity items term (mkRat 13 20) ↔
        mkRat 13 20 ≤ calculateSimilarity item term)) ∧
    (∀ (items : List String) (term : String),
      (filterBySimilarity items term (mkRat 13 20)).Pairwise (fun p q => q.2 ≤ p.2)) ∧
    (∀ (items : List String) (term : String) (q : ℚ),
      (filterBySimilarity items term (mkRat 13 20)).filter (fun p => decide (p.2 = q)) =
        (keptCandidates items term (mkRat 13 20)).filter (fun p => decide (p.2 = q))) ∧
    filterBySimilarity ["ORDER", "ORDERS", "PRODUCT"] "ORDER" (mkRat 13 20) =
      [("ORDER", 1), ("ORDERS", 1)] ∧
    filterBySimilarity ["abc"] "abc" (mkRat 13 20) = [("abc", 1)] ∧
    filterBySimilarity ["xyz"] "abc" (mkRat 13 20) = [] := by
  refine ⟨?_, ?_, ?_, ?_, by decide, by decide, by decide⟩
  · intro items term item hitem hsub
    have hk : (item, (1 : ℚ)) ∈ keptCandidates items term (mkRat 13 20) := by
      apply List.mem_filterMap.mpr
      exact ⟨item, hitem, by simp [hsub]⟩
    exact ((sortDescStable_perm _).mem_iff).mpr hk
  · intro items term item hitem hsub
    constructor
    · intro hmem
      have hk := ((sortDescStable_perm _).mem_iff).mp hmem
      simp only [keptCandidates, List.mem_filterMap] at hk
      rcases hk with ⟨a, ha, hfa⟩
      split at hfa
      · next hs =>
        injection hfa with hpair
        have haitem : a = item := congrArg Prod.fst hpair
        rw [haitem, hsub] at hs
        cases hs
      · split at hfa
        · next hge =>
          injection hfa with hpair
          have haitem : a = item := congrArg Prod.fst hpair
          rw [haitem] at hge
          exact hge
        · cases hfa
    · intro hge
      have hk : (item, calculateSimilarity item term) ∈
          keptCandidates items term (mkRat 13 20) := by
        apply List.mem_filterMap.mpr
        refine ⟨item, hitem, ?_⟩
        simp [hsub, hge]
      exact ((sortDescStable_perm _).mem_iff).mpr hk
  · intro items term
    exact sortDescStable_sorted _
  · intro items term q
    exact sortDescStable_filter_stable q _

theorem c2_similarity_ranker_witness :
    ("ORDER", (1 : ℚ)) ∈
      filterBySimilarity ["ORDER", "ORDERS", "PRODUCT"] "ORDER" (mkRat 13 20) :=
  c2_similarity_ranker.1 ["ORDER", "ORDERS", "PRODUCT"] "ORDER" "ORDER"
    (by decide) (by decide)

/-- C3 (relationship symmetry — the code violates it): on the two-table
catalog where `ORDERS.customer_id` references `CUSTOMERS.id`,
`load_table_details("ORDERS")` does report the OUTGOING edge to `CUSTOMERS`,
but `get_related_tables` raises ORA-00904 for **every** table — its
referencing-tables query references the alias `ac` that its FROM clause never
declares — so neither `referenced_tables` nor `referencing_tables` is ever
returned, and the claimed bidirectional consistency fails. -/
theorem c3_relationship_symmetry_broken :
    (loadTableDetails (catalogEnv demoCatalog) "ORDERS" (DBState.mk 0 0 [])).1 =
      .ok (some (TableDetail.mk "TABLE"
        [ColumnInfo.mk "ID" "NUMBER" false, ColumnInfo.mk "CUSTOMER_ID" "NUMBER" true]
        [("CUSTOMERS", [RelEntry.mk "CUSTOMER_ID" "ID" "OUTGOING"])])) ∧
    (getRelatedTables (catalogEnv demoCatalog) "ORDERS" (DBState.mk 0 0 [])).1 =
      .error (.dbError 904) ∧
    (getRelatedTables (catalogEnv demoCatalog) "CUSTOMERS" (DBState.mk 0 0 [])).1 =
      .error (.dbError 904) := by
  refine ⟨by decide, by decide, by decide⟩

/-- C9 (counterexample): `get_dependent_objects` binds the object name
without uppercasing it (line 614), so `get_dependent_objects("foo")` finds
nothing while `get_dependent_objects("FOO")` finds the dependent view — the
claimed uniform case-normalization fails for this operation. -/
theorem c9_uppercase_normalization_counterexample :
    (getDependentObjects (catalogEnv depsCatalog) "FOO" (DBState.mk 0 0 [])).1 =
      .ok [DepObj.mk "V_FOO" "VIEW" "APP"] ∧
    (getDependentObjects (catalogEnv depsCatalog) "foo" (DBState.mk 0 0 [])).1 =
      .ok [] ∧
    (getDependentObjects (catalogEnv depsCatalog) "foo" (DBState.mk 0 0 [])).1 ≠
      (getDependentObjects (catalogEnv depsCatalog) (pyUpper "foo")
        (DBState.mk 0 0 [])).1 := by
  refine ⟨by decide, by decide, by decide⟩

/-- C9 (amended): the table-name input is uppercased before matching in
`load_table_details`, `get_table_constraints`, `get_table_indexes` and
`get_related_tables` — for those operations `f(n) = f(n.upper())` against any
environment — while `get_dependent_objects` (and `get_object_source`) pass
the name through unnormalized. -/
theorem c9_uppercase_normalization_amended :
    ∀ (env : Env) (t : String) (s : DBState),
      loadTableDetails env t s = loadTableDetails env (pyUpper t) s ∧
      getTableConstraints env t s = getTableConstraints env (pyUpper t) s ∧
      getTableIndexes env t s = getTableIndexes env (pyUpper t) s ∧
      getRelatedTables env t s = getRelatedTables env (pyUpper t) s := by
  intro env t s
  refine ⟨?_, ?_, ?_, ?_⟩
  · have hbody : loadTableDetailsBody env (pyUpper t) = loadTableDetailsBody env t := by
      unfold loadTableDetailsBody
      rw [pyUpper_idem]
    unfold loadTableDetails
    rw [hbody]
  · have hbody : getTableConstraintsBody env (pyUpper t) = getTableConstraintsBody env t := by
      unfold getTableConstraintsBody
      rw [pyUpper_idem]
    unfold getTableConstraints
    rw [hbody]
  · have hbody : getTableIndexesBody env (pyUpper t) = getTableIndexesBody env t := by
      unfold getTableIndexesBody
      rw [pyUpper_idem]
    unfold getTableIndexes
    rw [hbody]
  · have hbody : getRelatedTablesBody env (pyUpper t) = getRelatedTablesBody env t := by
      unfold getRelatedTablesBody
      rw [pyUpper_idem]
    unfold getRelatedTables
    rw [hbody]

theorem withConn_ok_fst {α : Type} (acq : Except PyErr Unit) (body : DBM α)
    (s : DBState) (h : acq = .ok ()) :
    (withConn acq body s).1 = (body { s with acquired := s.acquired + 1 }).1 := by
  rw [h, withConn_ok_run]

theorem withConn_ok_qlog {α : Type} (acq : Except PyErr Unit) (body : DBM α)
    (s : DBState) (h : acq = .ok ()) :
    ((withConn acq body s).2).qlog =
      ((body { s with acquired := s.acquired + 1 }).2).qlog := by
  rw [h, withConn_ok_run]

theorem bind_run {α β : Type} (m : DBM α) (f : α → DBM β) (s : DBState) :
    (m >>= f) s =
      match m s with
      | (.ok a, s1) => f a s1
      | (.error e, s1) => (.error e, s1) := rfl

theorem fallbackTags_mem {ρ : Type} (tA tU : QTag) (rA : Except PyErr (List ρ))
    (x : QTag) (hx : x ∈ fallbackTags tA tU rA) : x = tA ∨ x = tU := by
  cases rA with
  | ok rows => exact Or.inl (List.mem_singleton.mp hx)
  | error e =>
    cases e with
    | dbError code =>
      by_cases hc : code = 1031
      · have heq : fallbackTags tA tU
            (Except.error (PyErr.dbError code) : Except PyErr (List ρ)) = [tA, tU] := by
          simp [fallbackTags, hc]
        rw [heq] at hx
        rcases List.mem_cons.mp hx with h | h
        · exact Or.inl h
        · exact Or.inr (List.mem_singleton.mp h)
      · have heq : fallbackTags tA tU
            (Except.error (PyErr.dbError code) : Except PyErr (List ρ)) = [tA] := by
          simp [fallbackTags, hc]
        rw [heq] at hx
        exact Or.inl (List.mem_singleton.mp hx)
    | oraError tag => exact Or.inl (List.mem_singleton.mp hx)
    | otherError tag => exact Or.inl (List.mem_singleton.mp hx)

/-- The `try:` body of `load_table_details` when the existence check resolves
to a non-TABLE type: the columns are fetched, the relationship query is
skipped, and the relationship map stays empty. -/
theorem loadTableDetailsBody_view_run (env : Env) (t : String) (s : DBState)
    (rest : List String) (cols : List (String × String × String))
    (hfb : fallbackResult (env.objectCheckAllQ (effectiveSchema env) (pyUpper t))
      (env.objectCheckUserQ (pyUpper t)) = .ok ("VIEW" :: rest))
    (hcols : env.columnsQ (effectiveSchema env) (pyUpper t) = .ok cols) :
    loadTableDetailsBody env t s =
      (.ok (some (TableDetail.mk "VIEW"
          (cols.map fun r => ColumnInfo.mk r.1 r.2.1 (r.2.2 = "Y")) [])),
        { s with qlog := (s.qlog ++ fallbackTags QTag.objectCheckAllQ QTag.objectCheckUserQ
            (env.objectCheckAllQ (effectiveSchema env) (pyUpper t))) ++ [QTag.columnsQ] }) := by
  unfold loadTableDetailsBody
  have h1 := fallbackM_run QTag.objectCheckAllQ QTag.objectCheckUserQ
    (env.objectCheckAllQ (effectiveSchema env) (pyUpper t))
    (env.objectCheckUserQ (pyUpper t)) s
  rw [hfb] at h1
  simp [tryCatchOn, bind_run, h1, runQ, hcols, DBM.pure]

/-- C7 (view relationship suppression, lines 309-368): whenever the
existence check resolves the object to type VIEW, `load_table_details`
returns a detail record whose relationship map is empty — regardless of any
constraint rows the relationship query could see — and the
relationship-extraction query is never executed (its tag never enters the
round-trip log). -/
theorem c7_view_relationship_suppression :
    ∀ (env : Env) (t : String) (s : DBState) (rest : List String)
      (cols : List (String × String × String)),
      env.acquire = .ok () →
      fallbackResult (env.objectCheckAllQ (effectiveSchema env) (pyUpper t))
        (env.objectCheckUserQ (pyUpper t)) = .ok ("VIEW" :: rest) →
      env.columnsQ (effectiveSchema env) (pyUpper t) = .ok cols →
      QTag.relationshipsQ ∉ s.qlog →
      (loadTableDetails env t s).1 =
        .ok (some (TableDetail.mk "VIEW"
          (cols.map fun r => ColumnInfo.mk r.1 r.2.1 (r.2.2 = "Y")) [])) ∧
      QTag.relationshipsQ ∉ ((loadTableDetails env t s).2).qlog := by
  intro env t s rest cols hacq hfb hcols hnot
  have hrun := loadTableDetailsBody_view_run env t
    { s with acquired := s.acquired + 1 } rest cols hfb hcols
  constructor
  · unfold loadTableDetails
    rw [withConn_ok_fst _ _ _ hacq, hrun]
  · unfold loadTableDetails
    rw [withConn_ok_qlog _ _ _ hacq, hrun]
    intro hmem
    simp only [List.mem_append] at hmem
    rcases hmem with (hmem | hmem) | hmem
    · exact hnot hmem
    · rcases fallbackTags_mem _ _ _ _ hmem with h | h <;> cases h
    · simp at hmem

theorem c7_view_relationship_suppression_witness :
    (loadTableDetails (catalogEnv viewCatalog) "orders_v" (DBState.mk 0 0 [])).1 =
      .ok (some (TableDetail.mk "VIEW" [ColumnInfo.mk "ID" "NUMBER" false] [])) := by
  have h := c7_view_relationship_suppression (catalogEnv viewCatalog) "orders_v"
    (DBState.mk 0 0 []) [] [("ID", "NUMBER", "N")] rfl (by decide) (by decide)
    (by decide)
  simpa using h.1

/-- C8 (absence is not an error, lines 274-285): whenever the existence
check — including after exhausting both fallback tiers — yields the empty
row sequence, `load_table_details` returns `None` without raising. -/
theorem c8_absence_not_error :
    ∀ (env : Env) (t : String) (s : DBState),
      env.acquire = .ok () →
      fallbackResult (env.objectCheckAllQ (effectiveSchema env) (pyUpper t))
        (env.objectCheckUserQ (pyUpper t)) = .ok [] →
      (loadTableDetails env t s).1 = .ok none := by
  intro env t s hacq hfb
  unfold loadTableDetails
  rw [withConn_ok_fst _ _ _ hacq]
  unfold loadTableDetailsBody
  have h1 := fallbackM_run QTag.objectCheckAllQ QTag.objectCheckUserQ
    (env.objectCheckAllQ (effectiveSchema env) (pyUpper t))
    (env.objectCheckUserQ (pyUpper t)) { s with acquired := s.acquired + 1 }
  rw [hfb] at h1
  simp [tryCatchOn, bind_run, h1, DBM.pure]

theorem c8_absence_not_error_witness :
    (loadTableDetails noAccessEnv "NO_SUCH_TABLE" (DBState.mk 0 0 [])).1 = .ok none :=
  c8_absence_not_error noAccessEnv "NO_SUCH_TABLE" (DBState.mk 0 0 []) rfl (by decide)

/-- C10 (`get_database_info`, lines 136-164): when the version query
returns zero rows without raising, the result is the empty mapping — no
vendor, version or schema keys; the keyed record appears exactly when at
least one version row is present. -/
theorem c10_database_info_empty_on_no_rows :
    ∀ (env : Env) (s : DBState),
      env.acquire = .ok () →
      (env.versionQ = .ok [] → (getDatabaseInfo env s).1 = .ok []) ∧
      (∀ (v : String) (rest : List String), env.versionQ = .ok (v :: rest) →
        ∃ m : InfoDict, (getDatabaseInfo env s).1 = .ok m ∧
          m.lookup "vendor" = some (.s "Oracle") ∧
          m.lookup "version" = some (.s v) ∧
          m.lookup "schema" = some (.s (effectiveSchema env))) := by
  intro env s hacq
  constructor
  · intro hv
    unfold getDatabaseInfo
    rw [withConn_ok_fst _ _ _ hacq]
    unfold getDatabaseInfoBody
    simp [tryCatchOn, bind_run, runQ, hv, DBM.pure]
  · intro v rest hv
    by_cases hadd : (List.filter (fun r => decide (r ≠ "")) rest).isEmpty = true
    · have hres : (getDatabaseInfo env s).1 = .ok
          [("vendor", .s "Oracle"), ("version", .s v),
           ("schema", .s (effectiveSchema env))] := by
        unfold getDatabaseInfo
        rw [withConn_ok_fst _ _ _ hacq]
        unfold getDatabaseInfoBody
        simp only [tryCatchOn, bind_run, runQ, hv]
        rw [if_pos hadd]
        simp [DBM.pure]
      exact ⟨_, hres, by simp [List.lookup], by simp [List.lookup], by simp [List.lookup]⟩
    · have hres : (getDatabaseInfo env s).1 = .ok
          ([("vendor", .s "Oracle"), ("version", .s v),
            ("schema", .s (effectiveSchema env))] ++
           [("additional_info", .list (List.filter (fun r => decide (r ≠ "")) rest))]) := by
        unfold getDatabaseInfo
        rw [withConn_ok_fst _ _ _ hacq]
        unfold getDatabaseInfoBody
        simp only [tryCatchOn, bind_run, runQ, hv]
        rw [if_neg hadd]
        simp [DBM.pure]
      exact ⟨_, hres, by simp [List.lookup], by simp [List.lookup], by simp [List.lookup]⟩

theorem c10_database_info_empty_on_no_rows_witness :
    (getDatabaseInfo (catalogEnv demoCatalog) (DBState.mk 0 0 [])).1 = .ok [] :=
  (c10_database_info_empty_on_no_rows (catalogEnv demoCatalog)
    (DBState.mk 0 0 []) rfl).1 rfl

end OracleMCP
